import Mathlib

/-!
Analytics dashboard backend: request handlers over a document store.

A shallow embedding of the Go handlers in `backend/controllers` and of the
entity types in `backend/models`.  The handlers are thin: each one binds a
JSON body (creates only), performs a single storage call and answers with a
status code.  What the handlers call (gin's JSON binding, the object-id
generator, the clock, the MongoDB collection operations) is the environment;
it is modelled in the first half of this file, each piece with the behaviour
it is given and the limits of the model stated in its doc comment.
-/

namespace Dashboard

/-! ## Scalar types -/

/-- The driver's `primitive.ObjectID`: twelve bytes, kept as the number they
spell in big-endian order. -/
abbrev ObjectID := Nat

/-- The all-zero object id, `primitive.NilObjectID`. -/
def NilObjectID : ObjectID := 0

/-- An instant, in milliseconds since the Unix epoch.  This is the resolution
at which the database keeps a `time.Time`; the digits below the millisecond,
the zone and the monotonic reading of a Go `time.Time` are not modelled. -/
abbrev Time := Int

/-- The zero `time.Time` (`0001-01-01T00:00:00Z`), the value of a `Date` field
that nothing has set. -/
def zeroTime : Time := -62135596800000

/-- A Go `float64`, kept as its 64-bit pattern.  The handlers perform no
arithmetic on these values; they only carry them from the body to the store. -/
structure Float64 where
  bits : Nat
deriving DecidableEq, Repr

/-! ## Entity types (`backend/models`) -/

/-- Go struct `models.CampaignConversion`. -/
structure CampaignConversion where
  ID : ObjectID
  Campaign : String
  Conversions : Int
  Date : Time
deriving DecidableEq, Repr

/-- Go struct `models.RevenueDataPoint`. -/
structure RevenueDataPoint where
  ID : ObjectID
  Date : Time
  Revenue : Float64
  Source : String
  Region : String
deriving DecidableEq, Repr

/-- Go struct `models.OverviewMetrics`. -/
structure OverviewMetrics where
  ID : ObjectID
  Revenue : Float64
  Users : Int
  Conversions : Int
  Growth : Float64
  Date : Time
deriving DecidableEq, Repr

/-! ## Request bodies -/

/-- A JSON number token: its text as written, and what the decoder can make
of that text.  `integer` is its value when the literal is written without
fraction and without exponent (the only form `strconv.ParseInt` accepts), and
`float64` is the result of `strconv.ParseFloat(text, 64)`, absent on a range
error. -/
structure NumLit where
  text : String
  integer : Option Int
  float64 : Option Float64
deriving DecidableEq, Repr

/-- A well-formed JSON value.  Object members are kept in the order written,
duplicates included, because the decoder visits them in that order.  A tree
stands for the body written the way `JSON.stringify` writes it: no white
space between tokens, strings with the mandatory escapes only, numbers with
the text kept in the token.  The raw text of a token, which two decoders look
at, is the text of that spelling (`rawText` below). -/
inductive Json where
  | null
  | bool (b : Bool)
  | num (lit : NumLit)
  | str (s : String)
  | arr (items : List Json)
  | obj (members : List (String × Json))

/-- The decimal spelling of an integer. -/
def intText : Int → String
  | Int.ofNat m => String.mk (Nat.toDigits 10 m)
  | Int.negSucc m => String.mk ((Nat.toDigits 10 (m + 1)).cons (Char.ofNat 45))

/-- The JSON number token written as the integer literal `n`. -/
def Json.int (n : Int) (f : Float64) : Json := Json.num ⟨intText n, some n, some f⟩

/-- Case folding of one rune as `encoding/json` does it when it matches an
object key against a field name: ASCII letters to upper case, and the two
non-ASCII runes whose fold orbit holds an ASCII letter (U+017F, U+212A) to
that letter.  Any other rune folds to a non-ASCII rune and is left as it is,
which cannot change a comparison with the ASCII field names used here. -/
def foldRune (c : Char) : Char :=
  if c = Char.ofNat 0x17F then 'S'
  else if c = Char.ofNat 0x212A then 'K'
  else c.toUpper

/-- The folded form of a key, `foldName` of `encoding/json`. -/
def foldName (key : String) : List Char := key.data.map foldRune

/-- Whether an object key selects the struct field whose `json` tag is `tag`.
The decoder tries the exact name first and the folded name next; the tags of
one struct have distinct folded names, so the folded comparison decides. -/
def keyMatches (key tag : String) : Bool := foldName key == foldName tag

/-- Bounds of Go's `int` on a 64-bit platform. -/
def minInt : Int := -(2 ^ 63)

/-- Largest value of Go's `int` on a 64-bit platform. -/
def maxInt : Int := 2 ^ 63 - 1

/-- Decoding a JSON value into a `string` field.  `null` leaves the field as
it is; anything but a string is an `UnmarshalTypeError`. -/
def decodeString (v : Json) (old : String) : Option String :=
  match v with
  | .null => some old
  | .str s => some s
  | _ => none

/-- Decoding a JSON value into an `int` field: the literal must be an integer
literal within the range of `int`. -/
def decodeInt (v : Json) (old : Int) : Option Int :=
  match v with
  | .null => some old
  | .num lit =>
    match lit.integer with
    | some n => if minInt ≤ n ∧ n ≤ maxInt then some n else none
    | none => none
  | _ => none

/-- Decoding a JSON value into a `float64` field. -/
def decodeFloat64 (v : Json) (old : Float64) : Option Float64 :=
  match v with
  | .null => some old
  | .num lit => lit.float64
  | _ => none

/-- Value of one hexadecimal digit, either case. -/
def hexVal (c : Char) : Option Nat :=
  if c.isDigit then some (c.toNat - 48)
  else if 97 ≤ c.toNat ∧ c.toNat ≤ 102 then some (c.toNat - 87)
  else if 65 ≤ c.toNat ∧ c.toNat ≤ 70 then some (c.toNat - 55)
  else none

/-- The number spelled by a list of hexadecimal digits, most significant
first, continuing from `acc`. -/
def hexDigits : List Char → Nat → Option Nat
  | [], acc => some acc
  | c :: cs, acc =>
    match hexVal c with
    | some d => hexDigits cs (16 * acc + d)
    | none => none

/-- The string form of an object id accepted by `ObjectID.UnmarshalJSON`: the
empty string stands for the nil id, otherwise exactly 24 hexadecimal digits. -/
def objectIDFromString (s : String) : Option ObjectID :=
  if s.data = [] then some NilObjectID
  else if s.data.length = 24 then hexDigits s.data 0
  else none

/-- The last member of an object with the given key, as a Go map built from
the object would return it. -/
def lastMember (key : String) : List (String × Json) → Option Json
  | [] => none
  | (k, v) :: rest =>
    match lastMember key rest with
    | some w => some w
    | none => if k = key then some v else none

/-- The UTF-8 bytes of one rune. -/
def utf8Bytes (c : Char) : List Nat :=
  if c.toNat < 0x80 then [c.toNat]
  else if c.toNat < 0x800 then [0xC0 + c.toNat / 64, 0x80 + c.toNat % 64]
  else if c.toNat < 0x10000 then
    [0xE0 + c.toNat / 4096, 0x80 + c.toNat / 64 % 64, 0x80 + c.toNat % 64]
  else
    [0xF0 + c.toNat / 262144, 0x80 + c.toNat / 4096 % 64, 0x80 + c.toNat / 64 % 64,
      0x80 + c.toNat % 64]

/-- The byte of a lower-case hexadecimal digit. -/
def hexByte (d : Nat) : Nat := if d < 10 then 48 + d else 87 + d

/-- The bytes that spell one rune inside a JSON string: a backslash escape
for the quote, the backslash and the control characters, the rune itself
otherwise. -/
def escapedBytes (c : Char) : List Nat :=
  if c.toNat = 0x22 then [0x5C, 0x22]
  else if c.toNat = 0x5C then [0x5C, 0x5C]
  else if c.toNat = 8 then [0x5C, 0x62]
  else if c.toNat = 9 then [0x5C, 0x74]
  else if c.toNat = 10 then [0x5C, 0x6E]
  else if c.toNat = 12 then [0x5C, 0x66]
  else if c.toNat = 13 then [0x5C, 0x72]
  else if c.toNat < 0x20 then [0x5C, 0x75, 48, 48, hexByte (c.toNat / 16), hexByte (c.toNat % 16)]
  else utf8Bytes c

/-- The raw text of a string token, quotes included. -/
def rawString (s : String) : List Nat :=
  0x22 :: ((s.data.map escapedBytes).flatten ++ [0x22])

mutual

/-- The raw text of a token, as bytes. -/
def rawText : Json → List Nat
  | .null => [110, 117, 108, 108]
  | .bool true => [116, 114, 117, 101]
  | .bool false => [102, 97, 108, 115, 101]
  | .num lit => (lit.text.data.map utf8Bytes).flatten
  | .str s => rawString s
  | .arr items => 0x5B :: (rawItems items ++ [0x5D])
  | .obj members => 0x7B :: (rawMembers members ++ [0x7D])

/-- The raw text of the elements of an array, commas between them. -/
def rawItems : List Json → List Nat
  | [] => []
  | [v] => rawText v
  | v :: w :: rest => rawText v ++ 0x2C :: rawItems (w :: rest)

/-- The raw text of the members of an object, commas between them. -/
def rawMembers : List (String × Json) → List Nat
  | [] => []
  | [(k, v)] => rawString k ++ 0x3A :: rawText v
  | (k, v) :: m :: rest => rawString k ++ 0x3A :: (rawText v ++ 0x2C :: rawMembers (m :: rest))

end

/-- The number spelled by a list of bytes, most significant first,
continuing from `acc`. -/
def bytesValue : List Nat → Nat → Nat
  | [], acc => acc
  | b :: bs, acc => bytesValue bs (256 * acc + b)

/-- The method `ObjectID.UnmarshalJSON` of the driver, reached for a member
that selects the `ID` field.  `null` leaves the field as it is.  A token whose
raw text is exactly twelve bytes is taken as the twelve bytes of the id,
whatever it spells.  Otherwise a string is read by `objectIDFromString`, an
extended-JSON object is read through its `$oid` member, and anything else is
an error. -/
def decodeObjectID (v : Json) (old : ObjectID) : Option ObjectID :=
  match v with
  | .null => some old
  | .str s =>
    if (rawText (.str s)).length = 12 then some (bytesValue (rawText (.str s)) 0)
    else objectIDFromString s
  | .obj members =>
    if (rawText (.obj members)).length = 12 then some (bytesValue (rawText (.obj members)) 0)
    else
      match lastMember "$oid" members with
      | some (.str s) => objectIDFromString s
      | _ => none
  | v =>
    if (rawText v).length = 12 then some (bytesValue (rawText v) 0) else none

/-! ### Timestamps in a body -/

/-- Value of one decimal digit. -/
def digitVal (c : Char) : Option Nat :=
  if c.isDigit then some (c.toNat - 48) else none

/-- Two decimal digits at the head of the input. -/
def twoDigits : List Char → Option (Nat × List Char)
  | a :: b :: rest =>
    match digitVal a, digitVal b with
    | some x, some y => some (10 * x + y, rest)
    | _, _ => none
  | _ => none

/-- The given character at the head of the input. -/
def expectChar (c : Char) : List Char → Option (List Char)
  | d :: rest => if d = c then some rest else none
  | [] => none

/-- Gregorian leap years. -/
def isLeap (y : Nat) : Bool := y % 4 == 0 && (y % 100 != 0 || y % 400 == 0)

/-- Number of days of a month. -/
def daysIn (y m : Nat) : Nat :=
  if m = 2 then (if isLeap y then 29 else 28)
  else if m = 4 ∨ m = 6 ∨ m = 9 ∨ m = 11 then 30
  else 31

/-- Days from 1970-01-01 to the given civil date (proleptic Gregorian). -/
def daysFromCivil (y m d : Nat) : Int :=
  let y1 : Int := if m ≤ 2 then (y : Int) - 1 else y
  let era : Int := y1 / 400
  let yoe : Int := y1 - era * 400
  let mp : Int := if m ≤ 2 then (m : Int) + 9 else (m : Int) - 3
  let doy : Int := (153 * mp + 2) / 5 + d - 1
  let doe : Int := yoe * 365 + yoe / 4 - yoe / 100 + doy
  era * 146097 + doe - 719468

/-- The decimal digits at the head of the input, and what follows them. -/
def takeDigits : List Char → List Nat × List Char
  | [] => ([], [])
  | c :: cs =>
    match digitVal c with
    | some d => ((takeDigits cs).1.cons d, (takeDigits cs).2)
    | none => ([], c :: cs)

/-- Milliseconds spelled by the digits of a fraction of a second; digits past
the third are dropped. -/
def milliOf : List Nat → Nat
  | [] => 0
  | [a] => 100 * a
  | [a, b] => 100 * a + 10 * b
  | a :: b :: c :: _ => 100 * a + 10 * b + c

/-- The optional fraction of a second: a period or a comma followed by at
least one digit.  When no digit follows, nothing is taken and what is left
cannot be read as a zone. -/
def parseFraction : List Char → Option (Nat × List Char)
  | [] => some (0, [])
  | c :: rest =>
    if c = '.' ∨ c = ',' then
      match takeDigits rest with
      | ([], _) => some (0, c :: rest)
      | (ds, rest1) => some (milliOf ds, rest1)
    else some (0, c :: rest)

/-- The zone designator that ends a timestamp, as an offset in seconds east
of UTC: `Z`, or a sign, two digits, a colon and two digits.  As in
`time.Parse`, the hours may be as large as 24 and the minutes as large as
60. -/
def parseZone : List Char → Option Int
  | ['Z'] => some 0
  | s :: rest =>
    match twoDigits rest with
    | some (hh, r1) =>
      match expectChar ':' r1 with
      | some r2 =>
        match twoDigits r2 with
        | some (mm, []) =>
          if hh ≤ 24 ∧ mm ≤ 60 then
            if s = '+' then some ((hh * 3600 + mm * 60 : Nat) : Int)
            else if s = '-' then some (-((hh * 3600 + mm * 60 : Nat) : Int))
            else none
          else none
        | _ => none
      | none => none
    | none => none
  | [] => none

/-- One or two decimal digits at the head of the input, two when the second
character is a digit (`getnum` of package `time` without a fixed width). -/
def oneOrTwoDigits : List Char → Option (Nat × List Char)
  | [] => none
  | [a] =>
    match digitVal a with
    | some x => some (x, [])
    | none => none
  | a :: b :: rest =>
    match digitVal a, digitVal b with
    | some x, some y => some (10 * x + y, rest)
    | some x, none => some (x, b :: rest)
    | none, _ => none

/-- The clock part `hh:mm:ss` at the head of the input, in seconds.  The
hour may be written with one digit; minutes and seconds take two. -/
def parseClock (cs : List Char) : Option (Nat × List Char) :=
  match oneOrTwoDigits cs with
  | some (h, r1) =>
    match expectChar ':' r1 with
    | some r2 =>
      match twoDigits r2 with
      | some (mi, r3) =>
        match expectChar ':' r3 with
        | some r4 =>
          match twoDigits r4 with
          | some (s, r5) =>
            if h < 24 ∧ mi < 60 ∧ s < 60 then some (h * 3600 + mi * 60 + s, r5) else none
          | none => none
        | none => none
      | none => none
    | none => none
  | none => none

/-- The date part `yyyy-mm-dd` at the head of the input, in days since the
epoch. -/
def parseDate (cs : List Char) : Option (Int × List Char) :=
  match twoDigits cs with
  | some (c, r1) =>
    match twoDigits r1 with
    | some (y, r2) =>
      match expectChar '-' r2 with
      | some r3 =>
        match twoDigits r3 with
        | some (m, r4) =>
          match expectChar '-' r4 with
          | some r5 =>
            match twoDigits r5 with
            | some (d, r6) =>
              if 1 ≤ m ∧ m ≤ 12 ∧ 1 ≤ d ∧ d ≤ daysIn (100 * c + y) m then
                some (daysFromCivil (100 * c + y) m d, r6)
              else none
            | none => none
          | none => none
        | none => none
      | none => none
    | none => none
  | none => none

/-- Reading a timestamp `yyyy-mm-ddThh:mm:ss[.f]zone` as
`time.Parse(time.RFC3339, s)` reads it, the spellings outside RFC 3339 that
it lets through included: a one-digit hour, a comma before the fraction of a
second, a zone offset of 24 hours or 60 minutes. -/
def parseRFC3339 (s : String) : Option Time :=
  match parseDate s.data with
  | some (days, r1) =>
    match expectChar 'T' r1 with
    | some r2 =>
      match parseClock r2 with
      | some (secs, r3) =>
        match parseFraction r3 with
        | some (ms, r4) =>
          match parseZone r4 with
          | some off => some (((days * 86400 + secs) - off) * 1000 + ms)
          | none => none
        | none => none
      | none => none
    | none => none
  | none => none

/-- The method `Time.UnmarshalJSON`, reached for a member that selects a
`Date` field: `null` leaves the field as it is, a string is read as a
timestamp by `parseRFC3339`, anything else is an error.  The method reads the
raw text between the quotes; a timestamp has no character that is written
with an escape, so for a string that reads as a timestamp the raw text is the
string. -/
def decodeTime (v : Json) (old : Time) : Option Time :=
  match v with
  | .null => some old
  | .str s => parseRFC3339 s
  | _ => none

/-! ### Decoding a body into a struct -/

/-- What the JSON decoder needs to know of a struct type: its zero value, and
how one object member is stored into it (a member whose key selects no field
is skipped; a member that cannot be stored is an error). -/
class Unmarshal (α : Type) where
  zero : α
  setField : α → String × Json → Option α

instance : Unmarshal CampaignConversion where
  zero := ⟨NilObjectID, "", 0, zeroTime⟩
  setField c m :=
    if keyMatches m.1 "id" then (decodeObjectID m.2 c.ID).map (fun x => { c with ID := x })
    else if keyMatches m.1 "campaign" then
      (decodeString m.2 c.Campaign).map (fun x => { c with Campaign := x })
    else if keyMatches m.1 "conversions" then
      (decodeInt m.2 c.Conversions).map (fun x => { c with Conversions := x })
    else if keyMatches m.1 "date" then (decodeTime m.2 c.Date).map (fun x => { c with Date := x })
    else some c

instance : Unmarshal RevenueDataPoint where
  zero := ⟨NilObjectID, zeroTime, ⟨0⟩, "", ""⟩
  setField r m :=
    if keyMatches m.1 "id" then (decodeObjectID m.2 r.ID).map (fun x => { r with ID := x })
    else if keyMatches m.1 "date" then (decodeTime m.2 r.Date).map (fun x => { r with Date := x })
    else if keyMatches m.1 "revenue" then
      (decodeFloat64 m.2 r.Revenue).map (fun x => { r with Revenue := x })
    else if keyMatches m.1 "source" then
      (decodeString m.2 r.Source).map (fun x => { r with Source := x })
    else if keyMatches m.1 "region" then
      (decodeString m.2 r.Region).map (fun x => { r with Region := x })
    else some r

instance : Unmarshal OverviewMetrics where
  zero := ⟨NilObjectID, ⟨0⟩, 0, 0, ⟨0⟩, zeroTime⟩
  setField o m :=
    if keyMatches m.1 "id" then (decodeObjectID m.2 o.ID).map (fun x => { o with ID := x })
    else if keyMatches m.1 "revenue" then
      (decodeFloat64 m.2 o.Revenue).map (fun x => { o with Revenue := x })
    else if keyMatches m.1 "users" then (decodeInt m.2 o.Users).map (fun x => { o with Users := x })
    else if keyMatches m.1 "conversions" then
      (decodeInt m.2 o.Conversions).map (fun x => { o with Conversions := x })
    else if keyMatches m.1 "growth" then
      (decodeFloat64 m.2 o.Growth).map (fun x => { o with Growth := x })
    else if keyMatches m.1 "date" then (decodeTime m.2 o.Date).map (fun x => { o with Date := x })
    else some o

/-- Storing the members of an object into a struct, in the order written.
The decoder records a type error and goes on, and stops at once on an error of
a custom unmarshaller; either way the call ends in an error, which is all a
handler looks at, so the first error ends the fold here. -/
def setFields {α : Type} [Unmarshal α] : List (String × Json) → α → Option α
  | [], a => some a
  | m :: rest, a =>
    match Unmarshal.setField a m with
    | some b => setFields rest b
    | none => none

/-- The request body as the decoder meets it: `none` when no well-formed JSON
value can be read from it (empty body, syntax error), otherwise the first
value of the stream. -/
abbrev Body := Option Json

/-- The call `c.ShouldBindJSON(&x)` of gin on a zero-valued struct `x`:
`json.NewDecoder(body).Decode(&x)` with gin's default decoder settings
(unknown keys allowed), followed by the struct validator, which has nothing
to check for structs without `binding` tags.  `none` is a returned error.
A top-level `null` stores nothing; a top-level value that is neither `null`
nor an object is a type error. -/
def ShouldBindJSON {α : Type} [Unmarshal α] : Body → Option α
  | none => none
  | some .null => some Unmarshal.zero
  | some (.obj members) => setFields members Unmarshal.zero
  | some _ => none

/-- The call `c.BindJSON(&x)` of gin: `ShouldBindJSON`, and on an error the
response is aborted with status 400 before the handler writes its own 400. -/
def BindJSON {α : Type} [Unmarshal α] (body : Body) : Option α := ShouldBindJSON body


/-! ## The document store -/

/-- A storage call that fails for a reason outside the program. -/
inductive Fault where
  | unreachable
  | deadlineExceeded
  | decode
deriving DecidableEq, Repr

/-- Errors returned by the driver.  `ErrNoDocuments` is `mongo.ErrNoDocuments`,
returned by a single-result query with an empty result; `duplicateKey` is the
write error of the unique index on `_id`. -/
inductive MongoError where
  | ErrNoDocuments
  | duplicateKey
  | fault (f : Fault)
deriving DecidableEq, Repr

/-- A document type: the value stored under `_id`. -/
class Document (α : Type) where
  docID : α → ObjectID

instance : Document CampaignConversion := ⟨CampaignConversion.ID⟩

instance : Document RevenueDataPoint := ⟨RevenueDataPoint.ID⟩

instance : Document OverviewMetrics := ⟨OverviewMetrics.ID⟩

/-- The `_id` values present in a collection. -/
def ids {α : Type} [Document α] (coll : List α) : List ObjectID := coll.map Document.docID

/-- The order in which the storage engine hands out the documents of a
collection for one query.  It is the engine's choice and may differ from one
query to the next; all that is known is that every document comes once. -/
structure ScanOrder (α : Type) where
  order : List α → List α
  perm : ∀ l, (order l).Perm l

/-- The engine's sort for `SetSort(bson.D{{"date", -1}})`: newest first, with
documents of equal date left in the order the scan delivered them. -/
def sortByDateDesc {α : Type} (date : α → Time) (docs : List α) : List α :=
  docs.insertionSort (fun a b => date b ≤ date a)

/-- The result of `collection.Find`, before `cursor.All` drains it. -/
structure Cursor (α : Type) where
  docs : List α

/-- The call `collection.Find(ctx, bson.M{}, opts)`: every document of the
collection, sorted by date descending when `sort` names the date field. -/
def Find {α : Type} (fault : Option Fault) (scan : ScanOrder α) (sort : Option (α → Time))
    (coll : List α) : Except MongoError (Cursor α) :=
  match fault with
  | some f => .error (.fault f)
  | none =>
    match sort with
    | none => .ok ⟨scan.order coll⟩
    | some date => .ok ⟨sortByDateDesc date (scan.order coll)⟩

/-- The call `cursor.All(ctx, &results)`. -/
def Cursor.All {α : Type} (fault : Option Fault) (cursor : Cursor α) :
    Except MongoError (List α) :=
  match fault with
  | some f => .error (.fault f)
  | none => .ok cursor.docs

/-- The call `collection.FindOne(ctx, bson.M{}, opts).Decode(&x)`: the first
document of the same query, `ErrNoDocuments` when there is none. -/
def FindOne {α : Type} (fault : Option Fault) (scan : ScanOrder α) (sort : Option (α → Time))
    (coll : List α) : Except MongoError α :=
  match fault with
  | some f => .error (.fault f)
  | none =>
    match sort with
    | none =>
      match (scan.order coll).head? with
      | some d => .ok d
      | none => .error .ErrNoDocuments
    | some date =>
      match (sortByDateDesc date (scan.order coll)).head? with
      | some d => .ok d
      | none => .error .ErrNoDocuments

/-- The call `collection.InsertOne(ctx, doc)`, as result and collection
afterwards.  The store appends the document unless its `_id` is already
present (every collection has a unique index on `_id`).  When the call goes
through, the caller gets the `_id` or the duplicate-key error.  When the call
fails outside the program the caller gets that error, and the store has
either not applied the insert (it was not reached) or applied it all the same
(`applied`: the call ran out of time, or the connection was lost, before the
acknowledgement came back).  The document is stored as the Go value given; an
all-zero id, which `omitempty` would drop and the driver replace, is not
treated apart. -/
def InsertOne {α : Type} [Document α] (fault : Option Fault) (applied : Bool) (coll : List α)
    (doc : α) : Except MongoError ObjectID × List α :=
  match fault with
  | some f =>
    if applied = true ∧ Document.docID doc ∉ ids coll then
      (.error (.fault f), coll ++ [doc])
    else (.error (.fault f), coll)
  | none =>
    if Document.docID doc ∈ ids coll then (.error .duplicateKey, coll)
    else (.ok (Document.docID doc), coll ++ [doc])

/-! ## Responses -/

/-- The JSON document a handler writes. -/
inductive Payload where
  | error (msg : String)
  | created (message : String) (id : ObjectID)
  | campaigns (docs : List CampaignConversion)
  | revenues (docs : List RevenueDataPoint)
  | overviews (docs : List OverviewMetrics)
  | overview (doc : OverviewMetrics)
deriving DecidableEq, Repr

/-- What `c.JSON(status, payload)` sends. -/
structure Response where
  status : Nat
  body : Payload
deriving DecidableEq, Repr

/-- Status code `http.StatusOK`. -/
def StatusOK : Nat := 200

/-- Status code `http.StatusCreated`. -/
def StatusCreated : Nat := 201

/-- Status code `http.StatusBadRequest`. -/
def StatusBadRequest : Nat := 400

/-- Status code `http.StatusNotFound`. -/
def StatusNotFound : Nat := 404

/-- Status code `http.StatusInternalServerError`. -/
def StatusInternalServerError : Nat := 500

/-- The id carried by a `201` response. -/
def Response.createdID (r : Response) : Option ObjectID :=
  match r.body with
  | .created _ id => if r.status = StatusCreated then some id else none
  | _ => none

/-! ## Handlers (`backend/controllers`) -/

/-- What the environment answers during one read request. -/
structure QueryEnv (α : Type) where
  scan : ScanOrder α
  findFault : Option Fault
  cursorFault : Option Fault

/-- What the environment answers during one create request: the value of
`primitive.NewObjectID()`, the value of `time.Now()`, whether the insert
fails outside the program, and, for an insert that fails so, whether the
store applied it all the same. -/
structure CreateEnv where
  newObjectID : ObjectID
  now : Time
  insertFault : Option Fault
  insertApplied : Bool

/-- Handler `GetCampaign` of `campaign_controller.go`. -/
def GetCampaign (env : QueryEnv CampaignConversion) (coll : List CampaignConversion) :
    Response :=
  match Find env.findFault env.scan none coll with
  | .error _ => ⟨StatusInternalServerError, .error "failed to fetch campaign"⟩
  | .ok cursor =>
    match cursor.All env.cursorFault with
    | .error _ => ⟨StatusInternalServerError, .error "Error decoding campaign"⟩
    | .ok campaign => ⟨StatusOK, .campaigns campaign⟩

/-- Handler `CreateCampaign` of `campaign_controller.go`, as response and
collection afterwards. -/
def CreateCampaign (env : CreateEnv) (body : Body) (coll : List CampaignConversion) :
    Response × List CampaignConversion :=
  match (BindJSON body : Option CampaignConversion) with
  | none => (⟨StatusBadRequest, .error "Invalid json data"⟩, coll)
  | some campaign =>
    let campaign := { campaign with ID := env.newObjectID }
    let campaign := { campaign with Date := env.now }
    match InsertOne env.insertFault env.insertApplied coll campaign with
    | (.error _, coll1) =>
      (⟨StatusInternalServerError, .error "Failed to create campaign"⟩, coll1)
    | (.ok insertedID, coll1) =>
      (⟨StatusCreated, .created "Campaign created successfully" insertedID⟩, coll1)

/-- Handler `CreateRevenueDataPoint` of `Revenue_controller.go`. -/
def CreateRevenueDataPoint (env : CreateEnv) (body : Body) (coll : List RevenueDataPoint) :
    Response × List RevenueDataPoint :=
  match (ShouldBindJSON body : Option RevenueDataPoint) with
  | none => (⟨StatusBadRequest, .error "invalid json"⟩, coll)
  | some revenue =>
    let revenue := { revenue with ID := env.newObjectID }
    let revenue := { revenue with Date := env.now }
    match InsertOne env.insertFault env.insertApplied coll revenue with
    | (.error _, coll1) =>
      (⟨StatusInternalServerError, .error "Failed to create revenue data"⟩, coll1)
    | (.ok insertedID, coll1) =>
      (⟨StatusCreated, .created "Revenue data created successfully" insertedID⟩, coll1)

/-- Handler `GetOverviewMetrics` of `overView_controller.go`. -/
def GetOverviewMetrics (env : QueryEnv OverviewMetrics) (coll : List OverviewMetrics) :
    Response :=
  match Find env.findFault env.scan (some OverviewMetrics.Date) coll with
  | .error _ => ⟨StatusInternalServerError, .error "failed to fetch overview metrics"⟩
  | .ok cursor =>
    match cursor.All env.cursorFault with
    | .error _ => ⟨StatusInternalServerError, .error "Error decoding overview metrics"⟩
    | .ok metrics => ⟨StatusOK, .overviews metrics⟩

/-- Handler `CreateOverviewMetrics` of `overView_controller.go`. -/
def CreateOverviewMetrics (env : CreateEnv) (body : Body) (coll : List OverviewMetrics) :
    Response × List OverviewMetrics :=
  match (ShouldBindJSON body : Option OverviewMetrics) with
  | none => (⟨StatusBadRequest, .error "invalid json data"⟩, coll)
  | some metrics =>
    let metrics := { metrics with ID := env.newObjectID }
    let metrics := { metrics with Date := env.now }
    match InsertOne env.insertFault env.insertApplied coll metrics with
    | (.error _, coll1) =>
      (⟨StatusInternalServerError, .error "failed to save overview metrics"⟩, coll1)
    | (.ok insertedID, coll1) =>
      (⟨StatusCreated, .created "Overview metrics created successfully" insertedID⟩, coll1)

/-- Handler `GetLatestOverviewMetrics` of `overView_controller.go`. -/
def GetLatestOverviewMetrics (env : QueryEnv OverviewMetrics) (coll : List OverviewMetrics) :
    Response :=
  match FindOne env.findFault env.scan (some OverviewMetrics.Date) coll with
  | .error .ErrNoDocuments => ⟨StatusNotFound, .error "no overview metrics found"⟩
  | .error _ =>
    ⟨StatusInternalServerError, .error "failed to fetch latest overview metrics"⟩
  | .ok metrics => ⟨StatusOK, .overview metrics⟩

/-- A sequence of create requests served one after the other by the same
handler on the same collection: the responses in order and the collection at
the end. -/
def runCreates {α : Type} (handler : CreateEnv → Body → List α → Response × List α) :
    List (CreateEnv × Body) → List α → List Response × List α
  | [], coll => ([], coll)
  | (env, body) :: rest, coll =>
    let step := handler env body coll
    let tail := runCreates handler rest step.2
    (step.1 :: tail.1, tail.2)

/-- The ids returned by the successful calls of a sequence. -/
def returnedIDs (resps : List Response) : List ObjectID := resps.filterMap Response.createdID


/-! ## Bodies that differ only in `id` and `date` -/

/-- Whether an object key selects one of the two fields the server assigns. -/
def isServerKey (key : String) : Bool := keyMatches key "id" || keyMatches key "date"

/-- The body without the members that select `id` or `date`.  Two bodies agree
on every field other than `id` and `date` when this gives the same for both. -/
def stripServerFields : Body → Body
  | some (.obj members) => some (.obj (members.filter (fun m => !isServerKey m.1)))
  | b => b

/-- The fields of a campaign that the client sets. -/
def CampaignConversion.clientFields (c : CampaignConversion) : String × Int :=
  (c.Campaign, c.Conversions)

/-- The fields of a revenue data point that the client sets. -/
def RevenueDataPoint.clientFields (r : RevenueDataPoint) : Float64 × String × String :=
  (r.Revenue, r.Source, r.Region)

/-- The fields of an overview record that the client sets. -/
def OverviewMetrics.clientFields (o : OverviewMetrics) : Float64 × Int × Int × Float64 :=
  (o.Revenue, o.Users, o.Conversions, o.Growth)

/-- The body `{"campaign": s, "conversions": n}`, the integer literal `n`
having the `float64` reading `f`. -/
def campaignBody (s : String) (n : Int) (f : Float64) : Body :=
  some (.obj [("campaign", .str s), ("conversions", .int n f)])

/-! ## Sample requests -/

/-- The scan that hands out the documents in the order they were stored. -/
def ScanOrder.stored {α : Type} : ScanOrder α := ⟨id, fun l => List.Perm.refl l⟩

/-- The scan that hands out the documents newest-stored first. -/
def ScanOrder.reversed {α : Type} : ScanOrder α := ⟨List.reverse, fun l => List.reverse_perm l⟩

/-- A read environment without storage fault that scans in stored order. -/
def calmEnv {α : Type} : QueryEnv α := ⟨ScanOrder.stored, none, none⟩

/-- A read environment without storage fault that scans in reverse order. -/
def calmReversedEnv {α : Type} : QueryEnv α := ⟨ScanOrder.reversed, none, none⟩

/-- A read environment whose first storage call runs out of time. -/
def timedOutEnv {α : Type} : QueryEnv α := ⟨ScanOrder.stored, some .deadlineExceeded, none⟩

/-- A create environment whose insert runs out of time. -/
def timedOutCreateEnv : CreateEnv :=
  ⟨0x65a1b2c3d4e5f60718293a4b, 1700000000000, some .deadlineExceeded, false⟩

/-- An overview record with the given id and date. -/
def overviewAt (id : ObjectID) (date : Time) : OverviewMetrics :=
  ⟨id, ⟨0x4029000000000000⟩, 7, 3, ⟨0x3FF8000000000000⟩, date⟩

/-- A create environment: a generated id, a clock reading, no storage fault. -/
def sampleEnv : CreateEnv := ⟨0x65a1b2c3d4e5f60718293a4b, 1700000000000, none, false⟩

/-- The body `{"campaign":"spring_sale","conversions":42}`. -/
def springSale : Body := campaignBody "spring_sale" 42 ⟨0x4045000000000000⟩

/-- A campaign body that carries its own id and date. -/
def campaignWithIdDate : Body :=
  some (.obj [("id", .str "0123456789abcdef01234567"), ("campaign", .str "spring_sale"),
    ("conversions", .int 42 ⟨0x4045000000000000⟩), ("date", .str "2020-01-01T00:00:00Z")])

/-- A revenue body that carries its own id and date. -/
def revenueWithIdDate : Body :=
  some (.obj [("id", .str "0123456789abcdef01234567"), ("date", .str "2020-01-01T00:00:00Z"),
    ("revenue", .num ⟨"12.5", none, some ⟨0x4029000000000000⟩⟩), ("source", .str "ads"),
    ("region", .str "EU")])

/-- An overview body that carries its own id and date. -/
def overviewWithIdDate : Body :=
  some (.obj [("id", .str "0123456789abcdef01234567"),
    ("revenue", .num ⟨"12.5", none, some ⟨0x4029000000000000⟩⟩),
    ("users", .int 7 ⟨0x401C000000000000⟩), ("conversions", .int 3 ⟨0x4008000000000000⟩),
    ("growth", .num ⟨"1.5", none, some ⟨0x3FF8000000000000⟩⟩), ("date", .str "2020-01-01T00:00:00Z")])

/-- A body whose `campaign` member is a number: well-formed JSON that does not
fit any of the three entity shapes it is sent to. -/
def wrongShape : Body :=
  some (.obj [("campaign", .int 5 ⟨0x4014000000000000⟩), ("revenue", .str "much"),
    ("users", .str "many")])

/-- Four create requests: one that goes through, one that repeats its id,
one whose insert runs out of time without being applied, one that goes
through with another id. -/
def sampleCalls : List (CreateEnv × Body) :=
  [(sampleEnv, springSale), (sampleEnv, springSale), (timedOutCreateEnv, springSale),
    (⟨0x65a1b2c3d4e5f60718293a4c, 1700000000500, none, false⟩, springSale)]

/-- The body `{"campaign":"spring_sale","conversions":-5}`. -/
def negativeConversions : Body := campaignBody "spring_sale" (-5) ⟨0xC014000000000000⟩

/-- The body `{"campaign":"spring_sale","conversions":42,"id":"zz"}`. -/
def springSaleBadId : Body :=
  some (.obj [("campaign", .str "spring_sale"), ("conversions", .int 42 ⟨0x4045000000000000⟩),
    ("id", .str "zz")])

/-! ## Shape of a create -/

theorem internal_ne_created : StatusInternalServerError ≠ StatusCreated := by decide

theorem bad_request_ne_created : StatusBadRequest ≠ StatusCreated := by decide

theorem InsertOne_duplicate {α : Type} [Document α] (applied : Bool) (coll : List α) (doc : α)
    (h : Document.docID doc ∈ ids coll) :
    InsertOne none applied coll doc = (.error .duplicateKey, coll) := by
  simp [InsertOne, h]

theorem InsertOne_fresh {α : Type} [Document α] (applied : Bool) (coll : List α) (doc : α)
    (h : Document.docID doc ∉ ids coll) :
    InsertOne none applied coll doc = (.ok (Document.docID doc), coll ++ [doc]) := by
  simp [InsertOne, h]

/-- An insert stores nothing and reports an error, or has been applied by
the store while the call failed and reports that error, or appends the
document and reports its id; a document is only ever appended when its id was
not present. -/
theorem InsertOne_cases {α : Type} [Document α] (fault : Option Fault) (applied : Bool)
    (coll : List α) (doc : α) :
    (∃ e, InsertOne fault applied coll doc = (.error e, coll) ∧
        (fault ≠ none ∨ Document.docID doc ∈ ids coll)) ∨
    (∃ e, InsertOne fault applied coll doc = (.error e, coll ++ [doc]) ∧
        fault ≠ none ∧ applied = true ∧ Document.docID doc ∉ ids coll) ∨
    (InsertOne fault applied coll doc = (.ok (Document.docID doc), coll ++ [doc]) ∧
        fault = none ∧ Document.docID doc ∉ ids coll) := by
  cases fault with
  | some f =>
    by_cases hl : applied = true ∧ Document.docID doc ∉ ids coll
    · refine Or.inr (Or.inl ⟨.fault f, ?_, by simp, hl.1, hl.2⟩)
      simp only [InsertOne, if_pos hl]
    · refine Or.inl ⟨.fault f, ?_, Or.inl (by simp)⟩
      simp only [InsertOne, if_neg hl]
  | none =>
    by_cases h : Document.docID doc ∈ ids coll
    · exact Or.inl ⟨_, InsertOne_duplicate applied coll doc h, Or.inr h⟩
    · exact Or.inr (Or.inr ⟨InsertOne_fresh applied coll doc h, rfl, h⟩)

theorem CreateCampaign_unbound (env : CreateEnv) (body : Body) (coll : List CampaignConversion)
    (h : (BindJSON body : Option CampaignConversion) = none) :
    CreateCampaign env body coll = (⟨StatusBadRequest, .error "Invalid json data"⟩, coll) := by
  simp [CreateCampaign, h]

theorem CreateCampaign_bound (env : CreateEnv) (body : Body) (coll : List CampaignConversion)
    (c : CampaignConversion) (h : (BindJSON body : Option CampaignConversion) = some c) :
    (CreateCampaign env body coll =
        (⟨StatusInternalServerError, .error "Failed to create campaign"⟩, coll) ∧
      (env.insertFault ≠ none ∨ env.newObjectID ∈ ids coll)) ∨
    (CreateCampaign env body coll =
        (⟨StatusInternalServerError, .error "Failed to create campaign"⟩,
          coll ++ [⟨env.newObjectID, c.Campaign, c.Conversions, env.now⟩]) ∧
      env.insertFault ≠ none ∧ env.insertApplied = true ∧ env.newObjectID ∉ ids coll) ∨
    (CreateCampaign env body coll =
        (⟨StatusCreated, .created "Campaign created successfully" env.newObjectID⟩,
          coll ++ [⟨env.newObjectID, c.Campaign, c.Conversions, env.now⟩]) ∧
      env.insertFault = none ∧ env.newObjectID ∉ ids coll) := by
  rcases InsertOne_cases env.insertFault env.insertApplied coll
      (⟨env.newObjectID, c.Campaign, c.Conversions, env.now⟩ : CampaignConversion) with
    ⟨e, he, hc⟩ | ⟨e, he, hc⟩ | ⟨hk, hc⟩
  · exact Or.inl ⟨by simp [CreateCampaign, h, he], hc⟩
  · exact Or.inr (Or.inl ⟨by simp [CreateCampaign, h, he], hc⟩)
  · refine Or.inr (Or.inr ⟨?_, hc⟩)
    simp [CreateCampaign, h, hk]
    rfl

theorem CreateRevenueDataPoint_unbound (env : CreateEnv) (body : Body)
    (coll : List RevenueDataPoint)
    (h : (ShouldBindJSON body : Option RevenueDataPoint) = none) :
    CreateRevenueDataPoint env body coll = (⟨StatusBadRequest, .error "invalid json"⟩, coll) := by
  simp [CreateRevenueDataPoint, h]

theorem CreateRevenueDataPoint_bound (env : CreateEnv) (body : Body) (coll : List RevenueDataPoint)
    (r : RevenueDataPoint) (h : (ShouldBindJSON body : Option RevenueDataPoint) = some r) :
    (CreateRevenueDataPoint env body coll =
        (⟨StatusInternalServerError, .error "Failed to create revenue data"⟩, coll) ∧
      (env.insertFault ≠ none ∨ env.newObjectID ∈ ids coll)) ∨
    (CreateRevenueDataPoint env body coll =
        (⟨StatusInternalServerError, .error "Failed to create revenue data"⟩,
          coll ++ [⟨env.newObjectID, env.now, r.Revenue, r.Source, r.Region⟩]) ∧
      env.insertFault ≠ none ∧ env.insertApplied = true ∧ env.newObjectID ∉ ids coll) ∨
    (CreateRevenueDataPoint env body coll =
        (⟨StatusCreated, .created "Revenue data created successfully" env.newObjectID⟩,
          coll ++ [⟨env.newObjectID, env.now, r.Revenue, r.Source, r.Region⟩]) ∧
      env.insertFault = none ∧ env.newObjectID ∉ ids coll) := by
  rcases InsertOne_cases env.insertFault env.insertApplied coll
      (⟨env.newObjectID, env.now, r.Revenue, r.Source, r.Region⟩ : RevenueDataPoint) with
    ⟨e, he, hc⟩ | ⟨e, he, hc⟩ | ⟨hk, hc⟩
  · exact Or.inl ⟨by simp [CreateRevenueDataPoint, h, he], hc⟩
  · exact Or.inr (Or.inl ⟨by simp [CreateRevenueDataPoint, h, he], hc⟩)
  · refine Or.inr (Or.inr ⟨?_, hc⟩)
    simp [CreateRevenueDataPoint, h, hk]
    rfl

theorem CreateOverviewMetrics_unbound (env : CreateEnv) (body : Body)
    (coll : List OverviewMetrics)
    (h : (ShouldBindJSON body : Option OverviewMetrics) = none) :
    CreateOverviewMetrics env body coll =
      (⟨StatusBadRequest, .error "invalid json data"⟩, coll) := by
  simp [CreateOverviewMetrics, h]

theorem CreateOverviewMetrics_bound (env : CreateEnv) (body : Body) (coll : List OverviewMetrics)
    (o : OverviewMetrics) (h : (ShouldBindJSON body : Option OverviewMetrics) = some o) :
    (CreateOverviewMetrics env body coll =
        (⟨StatusInternalServerError, .error "failed to save overview metrics"⟩, coll) ∧
      (env.insertFault ≠ none ∨ env.newObjectID ∈ ids coll)) ∨
    (CreateOverviewMetrics env body coll =
        (⟨StatusInternalServerError, .error "failed to save overview metrics"⟩,
          coll ++ [⟨env.newObjectID, o.Revenue, o.Users, o.Conversions, o.Growth, env.now⟩]) ∧
      env.insertFault ≠ none ∧ env.insertApplied = true ∧ env.newObjectID ∉ ids coll) ∨
    (CreateOverviewMetrics env body coll =
        (⟨StatusCreated, .created "Overview metrics created successfully" env.newObjectID⟩,
          coll ++ [⟨env.newObjectID, o.Revenue, o.Users, o.Conversions, o.Growth, env.now⟩]) ∧
      env.insertFault = none ∧ env.newObjectID ∉ ids coll) := by
  rcases InsertOne_cases env.insertFault env.insertApplied coll
      (⟨env.newObjectID, o.Revenue, o.Users, o.Conversions, o.Growth, env.now⟩ : OverviewMetrics) with
    ⟨e, he, hc⟩ | ⟨e, he, hc⟩ | ⟨hk, hc⟩
  · exact Or.inl ⟨by simp [CreateOverviewMetrics, h, he], hc⟩
  · exact Or.inr (Or.inl ⟨by simp [CreateOverviewMetrics, h, he], hc⟩)
  · refine Or.inr (Or.inr ⟨?_, hc⟩)
    simp [CreateOverviewMetrics, h, hk]
    rfl

/-! ## Creates -/

/-- C1: for each of the three create handlers and every body that binds, when
the insert succeeds (the handler answers 201) the collection afterwards is the
collection before followed by one document whose id is the id generated in
the handler, whose date is the clock reading taken in the handler, and whose
other fields are the values bound from the body; the id in the response is
that generated id. -/
theorem create_persists_server_id_and_date (env : CreateEnv) (body : Body) :
    (∀ (coll : List CampaignConversion) (c : CampaignConversion),
      BindJSON body = some c → (CreateCampaign env body coll).1.status = StatusCreated →
        (CreateCampaign env body coll).2 =
            coll ++ [⟨env.newObjectID, c.Campaign, c.Conversions, env.now⟩] ∧
          (CreateCampaign env body coll).1.createdID = some env.newObjectID) ∧
    (∀ (coll : List RevenueDataPoint) (r : RevenueDataPoint),
      ShouldBindJSON body = some r →
        (CreateRevenueDataPoint env body coll).1.status = StatusCreated →
        (CreateRevenueDataPoint env body coll).2 =
            coll ++ [⟨env.newObjectID, env.now, r.Revenue, r.Source, r.Region⟩] ∧
          (CreateRevenueDataPoint env body coll).1.createdID = some env.newObjectID) ∧
    (∀ (coll : List OverviewMetrics) (o : OverviewMetrics),
      ShouldBindJSON body = some o →
        (CreateOverviewMetrics env body coll).1.status = StatusCreated →
        (CreateOverviewMetrics env body coll).2 =
            coll ++ [⟨env.newObjectID, o.Revenue, o.Users, o.Conversions, o.Growth, env.now⟩] ∧
          (CreateOverviewMetrics env body coll).1.createdID = some env.newObjectID) := by
  refine ⟨?_, ?_, ?_⟩
  · intro coll c hb hs
    rcases CreateCampaign_bound env body coll c hb with ⟨h, _⟩ | ⟨h, _⟩ | ⟨h, _⟩
    · rw [h] at hs
      exact absurd hs internal_ne_created
    · rw [h] at hs
      exact absurd hs internal_ne_created
    · rw [h]
      exact ⟨rfl, rfl⟩
  · intro coll r hb hs
    rcases CreateRevenueDataPoint_bound env body coll r hb with ⟨h, _⟩ | ⟨h, _⟩ | ⟨h, _⟩
    · rw [h] at hs
      exact absurd hs internal_ne_created
    · rw [h] at hs
      exact absurd hs internal_ne_created
    · rw [h]
      exact ⟨rfl, rfl⟩
  · intro coll o hb hs
    rcases CreateOverviewMetrics_bound env body coll o hb with ⟨h, _⟩ | ⟨h, _⟩ | ⟨h, _⟩
    · rw [h] at hs
      exact absurd hs internal_ne_created
    · rw [h] at hs
      exact absurd hs internal_ne_created
    · rw [h]
      exact ⟨rfl, rfl⟩

/-- C1 at three bodies that carry the id `0123456789abcdef01234567` and the
date `2020-01-01T00:00:00Z`: the stored documents have neither. -/
theorem create_persists_server_id_and_date_witness :
    ((CreateCampaign sampleEnv campaignWithIdDate []).2 =
          [] ++ [⟨0x65a1b2c3d4e5f60718293a4b, "spring_sale", 42, 1700000000000⟩] ∧
        (CreateCampaign sampleEnv campaignWithIdDate []).1.createdID =
          some 0x65a1b2c3d4e5f60718293a4b) ∧
      ((CreateRevenueDataPoint sampleEnv revenueWithIdDate []).2 =
          [] ++ [⟨0x65a1b2c3d4e5f60718293a4b, 1700000000000, ⟨0x4029000000000000⟩, "ads", "EU"⟩] ∧
        (CreateRevenueDataPoint sampleEnv revenueWithIdDate []).1.createdID =
          some 0x65a1b2c3d4e5f60718293a4b) ∧
      ((CreateOverviewMetrics sampleEnv overviewWithIdDate []).2 =
          [] ++ [⟨0x65a1b2c3d4e5f60718293a4b, ⟨0x4029000000000000⟩, 7, 3,
            ⟨0x3FF8000000000000⟩, 1700000000000⟩] ∧
        (CreateOverviewMetrics sampleEnv overviewWithIdDate []).1.createdID =
          some 0x65a1b2c3d4e5f60718293a4b) :=
  ⟨(create_persists_server_id_and_date sampleEnv campaignWithIdDate).1 []
      ⟨0x0123456789abcdef01234567, "spring_sale", 42, 1577836800000⟩ (by decide) (by decide),
    (create_persists_server_id_and_date sampleEnv revenueWithIdDate).2.1 []
      ⟨0x0123456789abcdef01234567, 1577836800000, ⟨0x4029000000000000⟩, "ads", "EU"⟩
      (by decide) (by decide),
    (create_persists_server_id_and_date sampleEnv overviewWithIdDate).2.2 []
      ⟨0x0123456789abcdef01234567, ⟨0x4029000000000000⟩, 7, 3, ⟨0x3FF8000000000000⟩,
        1577836800000⟩ (by decide) (by decide)⟩

/-- C2: for each of the three create handlers and every body that fails to
bind, the handler answers 400 and the collection afterwards is the collection
before. -/
theorem create_unbound_body_is_bad_request (env : CreateEnv) (body : Body) :
    (∀ coll : List CampaignConversion, (BindJSON body : Option CampaignConversion) = none →
      (CreateCampaign env body coll).1.status = StatusBadRequest ∧
        (CreateCampaign env body coll).2 = coll) ∧
    (∀ coll : List RevenueDataPoint, (ShouldBindJSON body : Option RevenueDataPoint) = none →
      (CreateRevenueDataPoint env body coll).1.status = StatusBadRequest ∧
        (CreateRevenueDataPoint env body coll).2 = coll) ∧
    (∀ coll : List OverviewMetrics, (ShouldBindJSON body : Option OverviewMetrics) = none →
      (CreateOverviewMetrics env body coll).1.status = StatusBadRequest ∧
        (CreateOverviewMetrics env body coll).2 = coll) := by
  refine ⟨?_, ?_, ?_⟩
  · intro coll h
    rw [CreateCampaign_unbound env body coll h]
    exact ⟨rfl, rfl⟩
  · intro coll h
    rw [CreateRevenueDataPoint_unbound env body coll h]
    exact ⟨rfl, rfl⟩
  · intro coll h
    rw [CreateOverviewMetrics_unbound env body coll h]
    exact ⟨rfl, rfl⟩

/-- C2 at a body of the wrong shape, on a campaign collection that already
holds a document, and at an unreadable body on the other two. -/
theorem create_unbound_body_is_bad_request_witness :
    ((CreateCampaign sampleEnv wrongShape [⟨1, "a", 1, 0⟩]).1.status = StatusBadRequest ∧
        (CreateCampaign sampleEnv wrongShape [⟨1, "a", 1, 0⟩]).2 = [⟨1, "a", 1, 0⟩]) ∧
      ((CreateRevenueDataPoint sampleEnv wrongShape []).1.status = StatusBadRequest ∧
        (CreateRevenueDataPoint sampleEnv wrongShape []).2 = []) ∧
      ((CreateOverviewMetrics sampleEnv none []).1.status = StatusBadRequest ∧
        (CreateOverviewMetrics sampleEnv none []).2 = []) :=
  ⟨(create_unbound_body_is_bad_request sampleEnv wrongShape).1 [⟨1, "a", 1, 0⟩] (by decide),
    (create_unbound_body_is_bad_request sampleEnv wrongShape).2.1 [] (by decide),
    (create_unbound_body_is_bad_request sampleEnv none).2.2 [] (by decide)⟩


/-! ## Reads -/

theorem sortByDateDesc_perm {α : Type} (date : α → Time) (docs : List α) :
    (sortByDateDesc date docs).Perm docs :=
  List.perm_insertionSort _ docs

theorem sortByDateDesc_sorted {α : Type} (date : α → Time) (docs : List α) :
    (sortByDateDesc date docs).Pairwise (fun a b => date b ≤ date a) := by
  haveI : IsTotal α (fun a b => date b ≤ date a) := ⟨fun a b => le_total (date b) (date a)⟩
  haveI : IsTrans α (fun a b => date b ≤ date a) := ⟨fun _ _ _ hab hbc => le_trans hbc hab⟩
  exact List.sorted_insertionSort (fun a b => date b ≤ date a) docs

/-- The head of the sorted scan is a document of the collection and no
document of the collection is newer. -/
theorem head_sortByDateDesc {α : Type} (date : α → Time) (scan : ScanOrder α) (coll : List α)
    (d : α) (h : (sortByDateDesc date (scan.order coll)).head? = some d) :
    d ∈ coll ∧ ∀ x ∈ coll, date x ≤ date d := by
  have hperm : (sortByDateDesc date (scan.order coll)).Perm coll :=
    (sortByDateDesc_perm date _).trans (scan.perm coll)
  have hsorted := sortByDateDesc_sorted date (scan.order coll)
  cases hl : sortByDateDesc date (scan.order coll) with
  | nil => rw [hl] at h; simp at h
  | cons a tl =>
    rw [hl] at h hperm hsorted
    simp only [List.head?_cons, Option.some.injEq] at h
    subst h
    refine ⟨hperm.subset (List.mem_cons_self _ _), fun x hx => ?_⟩
    rcases List.mem_cons.1 (hperm.symm.subset hx) with rfl | hmem
    · exact le_refl _
    · exact (List.pairwise_cons.1 hsorted).1 x hmem

theorem head_sortByDateDesc_none {α : Type} (date : α → Time) (scan : ScanOrder α)
    (coll : List α) :
    (sortByDateDesc date (scan.order coll)).head? = none ↔ coll = [] := by
  have hperm : (sortByDateDesc date (scan.order coll)).Perm coll :=
    (sortByDateDesc_perm date _).trans (scan.perm coll)
  constructor
  · intro h
    cases hl : sortByDateDesc date (scan.order coll) with
    | nil => rw [hl] at hperm; exact hperm.symm.eq_nil
    | cons a tl => rw [hl] at h; simp at h
  · intro h
    subst h
    rw [hperm.eq_nil]
    rfl

/-- What `GetLatestOverviewMetrics` answers when the storage call goes
through: 404 on the empty collection, otherwise 200 with the head of the
sorted scan. -/
theorem GetLatestOverviewMetrics_calm (env : QueryEnv OverviewMetrics)
    (coll : List OverviewMetrics) (hf : env.findFault = none) :
    (coll = [] ∧ GetLatestOverviewMetrics env coll =
        ⟨StatusNotFound, .error "no overview metrics found"⟩) ∨
    (∃ d, (sortByDateDesc OverviewMetrics.Date (env.scan.order coll)).head? = some d ∧
        GetLatestOverviewMetrics env coll = ⟨StatusOK, .overview d⟩) := by
  cases hh : (sortByDateDesc OverviewMetrics.Date (env.scan.order coll)).head? with
  | none =>
    refine Or.inl ⟨(head_sortByDateDesc_none _ _ _).1 hh, ?_⟩
    simp [GetLatestOverviewMetrics, FindOne, hf, hh]
  | some d =>
    refine Or.inr ⟨d, rfl, ?_⟩
    simp [GetLatestOverviewMetrics, FindOne, hf, hh]

/-- What `GetOverviewMetrics` answers when both storage calls go through. -/
theorem GetOverviewMetrics_calm (env : QueryEnv OverviewMetrics) (coll : List OverviewMetrics)
    (hf : env.findFault = none) (hc : env.cursorFault = none) :
    GetOverviewMetrics env coll =
      ⟨StatusOK, .overviews (sortByDateDesc OverviewMetrics.Date (env.scan.order coll))⟩ := by
  simp [GetOverviewMetrics, Find, Cursor.All, hf, hc]

/-- A failed storage call makes `GetOverviewMetrics` answer 500. -/
theorem GetOverviewMetrics_fault (env : QueryEnv OverviewMetrics) (coll : List OverviewMetrics)
    (h : env.findFault ≠ none ∨ env.cursorFault ≠ none) :
    (GetOverviewMetrics env coll).status = StatusInternalServerError := by
  obtain ⟨scan, ff, cf⟩ := env
  cases ff <;> cases cf <;> simp [GetOverviewMetrics, Find, Cursor.All] at h ⊢

theorem ok_ne_internal : StatusInternalServerError ≠ StatusOK := by decide

/-- C3: when the query goes through, `GetLatestOverviewMetrics` answers 404
on the empty collection (and so not 500), and on a non-empty collection it
answers 200 with a document of the collection whose date is at least the date
of every document of the collection; when the query fails for any other
reason it answers 500. -/
theorem latest_overview_outcomes (env : QueryEnv OverviewMetrics)
    (coll : List OverviewMetrics) :
    (env.findFault = none → coll = [] →
      (GetLatestOverviewMetrics env coll).status = StatusNotFound) ∧
    (env.findFault = none → coll ≠ [] →
      ∃ d, GetLatestOverviewMetrics env coll = ⟨StatusOK, .overview d⟩ ∧ d ∈ coll ∧
        ∀ x ∈ coll, x.Date ≤ d.Date) ∧
    (∀ f, env.findFault = some f →
      (GetLatestOverviewMetrics env coll).status = StatusInternalServerError) := by
  refine ⟨?_, ?_, ?_⟩
  · intro hf he
    rcases GetLatestOverviewMetrics_calm env coll hf with ⟨_, h⟩ | ⟨d, hd, _⟩
    · rw [h]
    · have := (head_sortByDateDesc_none OverviewMetrics.Date env.scan coll).2 he
      rw [this] at hd
      cases hd
  · intro hf hne
    rcases GetLatestOverviewMetrics_calm env coll hf with ⟨he, _⟩ | ⟨d, hd, h⟩
    · exact absurd he hne
    · exact ⟨d, h, head_sortByDateDesc OverviewMetrics.Date env.scan coll d hd⟩
  · intro f hf
    simp [GetLatestOverviewMetrics, FindOne, hf]

/-- C3 on the empty collection, on a collection of three records stored
oldest, newest, middle, and under a timeout. -/
theorem latest_overview_outcomes_witness :
    (GetLatestOverviewMetrics calmEnv []).status = StatusNotFound ∧
      (∃ d, GetLatestOverviewMetrics calmEnv [overviewAt 1 10, overviewAt 2 30, overviewAt 3 20] =
          ⟨StatusOK, .overview d⟩ ∧
        d ∈ [overviewAt 1 10, overviewAt 2 30, overviewAt 3 20] ∧
        ∀ x ∈ [overviewAt 1 10, overviewAt 2 30, overviewAt 3 20], x.Date ≤ d.Date) ∧
      (GetLatestOverviewMetrics timedOutEnv [overviewAt 1 10]).status =
        StatusInternalServerError :=
  ⟨(latest_overview_outcomes calmEnv []).1 rfl rfl,
    (latest_overview_outcomes calmEnv [overviewAt 1 10, overviewAt 2 30, overviewAt 3 20]).2.1
      rfl (by decide),
    (latest_overview_outcomes timedOutEnv [overviewAt 1 10]).2.2 .deadlineExceeded rfl⟩

/-- C4: whatever the collection holds and in whatever order it was stored or
is scanned, a `GetOverviewMetrics` that answers 200 answers with a list that
is a permutation of the whole collection, in which each element is at least as
new as the one that follows it (and as every later one). -/
theorem list_overview_sorted_permutation (env : QueryEnv OverviewMetrics)
    (coll : List OverviewMetrics) (h : (GetOverviewMetrics env coll).status = StatusOK) :
    ∃ l, GetOverviewMetrics env coll = ⟨StatusOK, .overviews l⟩ ∧ l.Perm coll ∧
      l.Chain' (fun a b => b.Date ≤ a.Date) ∧ l.Pairwise (fun a b => b.Date ≤ a.Date) := by
  by_cases hf : env.findFault = none ∧ env.cursorFault = none
  · refine ⟨_, GetOverviewMetrics_calm env coll hf.1 hf.2,
      (sortByDateDesc_perm _ _).trans (env.scan.perm coll), ?_, sortByDateDesc_sorted _ _⟩
    exact List.Pairwise.chain' (sortByDateDesc_sorted _ _)
  · have h500 := GetOverviewMetrics_fault env coll (by
      by_contra hc
      exact hf ⟨not_not.1 (fun h1 => hc (Or.inl h1)), not_not.1 (fun h2 => hc (Or.inr h2))⟩)
    rw [h500] at h
    exact absurd h ok_ne_internal

/-- C4 on three records stored oldest, newest, middle and scanned in reverse. -/
theorem list_overview_sorted_permutation_witness :
    ∃ l, GetOverviewMetrics calmReversedEnv [overviewAt 1 10, overviewAt 2 30, overviewAt 3 20] =
        ⟨StatusOK, .overviews l⟩ ∧
      l.Perm [overviewAt 1 10, overviewAt 2 30, overviewAt 3 20] ∧
      l.Chain' (fun a b => b.Date ≤ a.Date) ∧ l.Pairwise (fun a b => b.Date ≤ a.Date) :=
  list_overview_sorted_permutation calmReversedEnv
    [overviewAt 1 10, overviewAt 2 30, overviewAt 3 20] (by decide)


/-- What `GetCampaign` answers when both storage calls go through. -/
theorem GetCampaign_calm (env : QueryEnv CampaignConversion) (coll : List CampaignConversion)
    (hf : env.findFault = none) (hc : env.cursorFault = none) :
    GetCampaign env coll = ⟨StatusOK, .campaigns (env.scan.order coll)⟩ := by
  simp [GetCampaign, Find, Cursor.All, hf, hc]

/-- C6: a body `{"campaign": s, "conversions": n}` with `n` in the range of
`int` binds to those two values; and for every body that binds, a
`CreateCampaign` that answers 201 answers with the message
"Campaign created successfully" and the id of the inserted document, after
which a `GetCampaign` on the resulting collection whose storage calls go
through answers 200 with a list that holds the record with that id, the
campaign and conversions of the body and the date set by the server. -/
theorem create_then_list_campaign (env : CreateEnv) (qenv : QueryEnv CampaignConversion)
    (coll : List CampaignConversion) :
    (∀ (s : String) (n : Int) (f : Float64), minInt ≤ n → n ≤ maxInt →
      (BindJSON (campaignBody s n f) : Option CampaignConversion) =
        some ⟨NilObjectID, s, n, zeroTime⟩) ∧
    (∀ (body : Body) (c : CampaignConversion), BindJSON body = some c →
      (CreateCampaign env body coll).1.status = StatusCreated →
      qenv.findFault = none → qenv.cursorFault = none →
        (CreateCampaign env body coll).1 =
            ⟨StatusCreated, .created "Campaign created successfully" env.newObjectID⟩ ∧
          ∃ l, GetCampaign qenv (CreateCampaign env body coll).2 = ⟨StatusOK, .campaigns l⟩ ∧
            (⟨env.newObjectID, c.Campaign, c.Conversions, env.now⟩ : CampaignConversion) ∈ l) := by
  refine ⟨?_, ?_⟩
  · intro s n f h1 h2
    have hk1 : keyMatches "campaign" "id" = false := by decide
    have hk2 : keyMatches "campaign" "campaign" = true := by decide
    have hk3 : keyMatches "conversions" "id" = false := by decide
    have hk4 : keyMatches "conversions" "campaign" = false := by decide
    have hk5 : keyMatches "conversions" "conversions" = true := by decide
    simp [BindJSON, ShouldBindJSON, campaignBody, setFields, Unmarshal.setField, Unmarshal.zero,
      hk1, hk2, hk3, hk4, hk5, decodeString, decodeInt, Json.int, h1, h2]
  · intro body c hb hs hf hc
    rcases CreateCampaign_bound env body coll c hb with ⟨h, _⟩ | ⟨h, _⟩ | ⟨h, _⟩
    · rw [h] at hs
      exact absurd hs internal_ne_created
    · rw [h] at hs
      exact absurd hs internal_ne_created
    · rw [h]
      refine ⟨rfl, _, GetCampaign_calm qenv _ hf hc, ?_⟩
      exact (qenv.scan.perm _).symm.subset (by simp)

/-- C6 at `{"campaign":"spring_sale","conversions":42}` on a collection that
already holds a document. -/
theorem create_then_list_campaign_witness :
    (CreateCampaign sampleEnv springSale [⟨1, "a", 1, 0⟩]).1 =
        ⟨StatusCreated, .created "Campaign created successfully" 0x65a1b2c3d4e5f60718293a4b⟩ ∧
      ∃ l, GetCampaign calmEnv (CreateCampaign sampleEnv springSale [⟨1, "a", 1, 0⟩]).2 =
          ⟨StatusOK, .campaigns l⟩ ∧
        (⟨0x65a1b2c3d4e5f60718293a4b, "spring_sale", 42, 1700000000000⟩ :
          CampaignConversion) ∈ l :=
  (create_then_list_campaign sampleEnv calmEnv [⟨1, "a", 1, 0⟩]).2 springSale
    ⟨NilObjectID, "spring_sale", 42, zeroTime⟩
    ((create_then_list_campaign sampleEnv calmEnv [⟨1, "a", 1, 0⟩]).1 "spring_sale" 42
      ⟨0x4045000000000000⟩ (by decide) (by decide))
    (by decide) rfl rfl


/-- A `GetLatestOverviewMetrics` that answers 200 had its query go through. -/
theorem GetLatestOverviewMetrics_ok (env : QueryEnv OverviewMetrics)
    (coll : List OverviewMetrics) (h : (GetLatestOverviewMetrics env coll).status = StatusOK) :
    env.findFault = none := by
  cases hf : env.findFault with
  | none => rfl
  | some f =>
    have h500 : (GetLatestOverviewMetrics env coll).status = StatusInternalServerError := by
      simp [GetLatestOverviewMetrics, FindOne, hf]
    rw [h500] at h
    exact absurd h ok_ne_internal

/-- A `GetOverviewMetrics` that answers 200 had both storage calls go through. -/
theorem GetOverviewMetrics_ok (env : QueryEnv OverviewMetrics) (coll : List OverviewMetrics)
    (h : (GetOverviewMetrics env coll).status = StatusOK) :
    env.findFault = none ∧ env.cursorFault = none := by
  by_contra hc
  have h500 := GetOverviewMetrics_fault env coll (by
    by_contra hn
    exact hc ⟨not_not.1 (fun h1 => hn (Or.inl h1)), not_not.1 (fun h2 => hn (Or.inr h2))⟩)
  rw [h500] at h
  exact absurd h ok_ne_internal

/-- C10 as stated fails: two records of the same date, the single-result
query scanning them in stored order and the list query in reverse order. -/
theorem latest_is_not_first_listed :
    GetLatestOverviewMetrics calmEnv [overviewAt 1 20, overviewAt 2 20] =
        ⟨StatusOK, .overview (overviewAt 1 20)⟩ ∧
      GetOverviewMetrics calmReversedEnv [overviewAt 1 20, overviewAt 2 20] =
        ⟨StatusOK, .overviews [overviewAt 2 20, overviewAt 1 20]⟩ ∧
      overviewAt 1 20 ≠ overviewAt 2 20 := by
  decide

/-- C10, amended: on a non-empty collection on which both calls answer 200,
the list answered by `GetOverviewMetrics` has a first element and its date is
the date of the document answered by `GetLatestOverviewMetrics`; the two are
the same document when no other document of the collection has that date, and
when the two queries scan the collection in the same order.  On the empty
collection, when the storage calls go through, `GetOverviewMetrics` answers
200 with no elements and `GetLatestOverviewMetrics` answers 404. -/
theorem latest_agrees_with_first_listed (envLatest envList : QueryEnv OverviewMetrics)
    (coll : List OverviewMetrics) :
    (coll ≠ [] → (GetLatestOverviewMetrics envLatest coll).status = StatusOK →
      (GetOverviewMetrics envList coll).status = StatusOK →
      ∃ d first rest,
        GetLatestOverviewMetrics envLatest coll = ⟨StatusOK, .overview d⟩ ∧
        GetOverviewMetrics envList coll = ⟨StatusOK, .overviews (first :: rest)⟩ ∧
        first.Date = d.Date ∧
        ((∀ x ∈ coll, x.Date = d.Date → x = d) → first = d) ∧
        (envLatest.scan.order coll = envList.scan.order coll → first = d)) ∧
    (coll = [] → envLatest.findFault = none → envList.findFault = none →
      envList.cursorFault = none →
      GetOverviewMetrics envList coll = ⟨StatusOK, .overviews []⟩ ∧
        (GetLatestOverviewMetrics envLatest coll).status = StatusNotFound) := by
  refine ⟨?_, ?_⟩
  · intro hne h1 h2
    have hf1 := GetLatestOverviewMetrics_ok envLatest coll h1
    obtain ⟨hf2, hc2⟩ := GetOverviewMetrics_ok envList coll h2
    rcases GetLatestOverviewMetrics_calm envLatest coll hf1 with ⟨he, _⟩ | ⟨d, hd, hl⟩
    · exact absurd he hne
    · have hlist := GetOverviewMetrics_calm envList coll hf2 hc2
      cases hs : sortByDateDesc OverviewMetrics.Date (envList.scan.order coll) with
      | nil =>
        have : (sortByDateDesc OverviewMetrics.Date (envList.scan.order coll)).head? = none := by
          rw [hs]; rfl
        exact absurd ((head_sortByDateDesc_none _ _ _).1 this) hne
      | cons first rest =>
        have hfirst : (sortByDateDesc OverviewMetrics.Date (envList.scan.order coll)).head? =
            some first := by rw [hs]; rfl
        obtain ⟨hmemF, hmaxF⟩ := head_sortByDateDesc OverviewMetrics.Date envList.scan coll first hfirst
        obtain ⟨hmemD, hmaxD⟩ := head_sortByDateDesc OverviewMetrics.Date envLatest.scan coll d hd
        have hdate : first.Date = d.Date := le_antisymm (hmaxD first hmemF) (hmaxF d hmemD)
        refine ⟨d, first, rest, hl, by rw [hlist, hs], hdate, fun hu => hu first hmemF hdate, ?_⟩
        intro hsame
        rw [hsame, hfirst] at hd
        exact Option.some.inj hd
  · intro he hf1 hf2 hc2
    subst he
    refine ⟨?_, ?_⟩
    · rw [GetOverviewMetrics_calm envList [] hf2 hc2]
      have : sortByDateDesc OverviewMetrics.Date (envList.scan.order []) = [] := by
        have hp := (sortByDateDesc_perm OverviewMetrics.Date (envList.scan.order [])).trans
          (envList.scan.perm [])
        exact hp.eq_nil
      rw [this]
    · rcases GetLatestOverviewMetrics_calm envLatest [] hf1 with ⟨_, h⟩ | ⟨d, hd, _⟩
      · rw [h]
      · have := (head_sortByDateDesc_none OverviewMetrics.Date envLatest.scan []).2 rfl
        rw [this] at hd
        cases hd

/-- C10, amended, on two records of the same date and one older record, the
two queries scanning in different orders. -/
theorem latest_agrees_with_first_listed_witness :
    ∃ d first rest,
      GetLatestOverviewMetrics calmEnv [overviewAt 1 20, overviewAt 2 20, overviewAt 3 10] =
        ⟨StatusOK, .overview d⟩ ∧
      GetOverviewMetrics calmReversedEnv [overviewAt 1 20, overviewAt 2 20, overviewAt 3 10] =
        ⟨StatusOK, .overviews (first :: rest)⟩ ∧
      first.Date = d.Date ∧
      ((∀ x ∈ [overviewAt 1 20, overviewAt 2 20, overviewAt 3 10], x.Date = d.Date → x = d) →
        first = d) ∧
      ((calmEnv : QueryEnv OverviewMetrics).scan.order
          [overviewAt 1 20, overviewAt 2 20, overviewAt 3 10] =
        (calmReversedEnv : QueryEnv OverviewMetrics).scan.order
          [overviewAt 1 20, overviewAt 2 20, overviewAt 3 10] → first = d) :=
  (latest_agrees_with_first_listed calmEnv calmReversedEnv
    [overviewAt 1 20, overviewAt 2 20, overviewAt 3 10]).1 (by decide) (by decide) (by decide)

/-- C8 as stated fails: the body `{"campaign":"spring_sale","conversions":-5}`
is accepted and the stored document has conversions `-5`. -/
theorem negative_conversions_are_stored :
    (CreateCampaign sampleEnv negativeConversions []).1.status = StatusCreated ∧
      (CreateCampaign sampleEnv negativeConversions []).2 =
        [⟨0x65a1b2c3d4e5f60718293a4b, "spring_sale", -5, 1700000000000⟩] ∧
      ¬ (0 ≤ (-5 : Int)) := by
  decide

/-- C7 as stated fails: two bodies that agree on every field other than `id`
and `date`, one without an id and one with the id `"zz"`, get 201 and 400. -/
theorem client_id_changes_status :
    stripServerFields springSaleBadId = stripServerFields springSale ∧
      (CreateCampaign sampleEnv springSale []).1.status = StatusCreated ∧
      (CreateCampaign sampleEnv springSaleBadId []).1.status = StatusBadRequest := by
  refine ⟨rfl, ?_, ?_⟩ <;> decide


/-! ## What binding depends on -/

theorem keyMatches_exclusive (key t1 t2 : String) (hne : foldName t1 ≠ foldName t2)
    (h : keyMatches key t1 = true) : keyMatches key t2 = false := by
  unfold keyMatches at *
  have h1 : foldName key = foldName t1 := by simpa using h
  cases h2 : (foldName key == foldName t2) with
  | false => rfl
  | true =>
    have h3 : foldName key = foldName t2 := by simpa using h2
    exact absurd (h1.symm.trans h3) hne

/-- A property of the struct that every stored member keeps holds of the
result of the whole fold. -/
theorem setFields_invariant {α : Type} [Unmarshal α] (P : α → Prop)
    (hstep : ∀ (a : α) (m : String × Json) (b : α),
      P a → Unmarshal.setField a m = some b → P b) :
    ∀ (ms : List (String × Json)) (a c : α), P a → setFields ms a = some c → P c := by
  intro ms
  induction ms with
  | nil =>
    intro a c ha h
    simp only [setFields, Option.some.injEq] at h
    exact h ▸ ha
  | cons m rest ih =>
    intro a c ha h
    cases hm : Unmarshal.setField a m with
    | none => simp [setFields, hm] at h
    | some b =>
      simp only [setFields, hm] at h
      exact ih b c (hstep a m b ha hm) h

/-- The fields read through `proj` depend only on the members that select
neither `id` nor `date`, provided that storing an `id` or `date` member
leaves them alone and that storing any other member treats them alike in two
structs that agree on them. -/
theorem setFields_strip {α β : Type} [Unmarshal α] (proj : α → β)
    (hs : ∀ (a : α) (m : String × Json) (b : α),
      isServerKey m.1 = true → Unmarshal.setField a m = some b → proj b = proj a)
    (hc : ∀ (a a' : α) (m : String × Json) (b : α),
      isServerKey m.1 = false → proj a = proj a' → Unmarshal.setField a m = some b →
        ∃ b', Unmarshal.setField a' m = some b' ∧ proj b = proj b') :
    ∀ (ms : List (String × Json)) (a a' c : α), proj a = proj a' → setFields ms a = some c →
      ∃ c', setFields (ms.filter (fun m => !isServerKey m.1)) a' = some c' ∧
        proj c = proj c' := by
  intro ms
  induction ms with
  | nil =>
    intro a a' c hp h
    simp only [setFields, Option.some.injEq] at h
    exact ⟨a', rfl, h ▸ hp⟩
  | cons m rest ih =>
    intro a a' c hp h
    cases hm : Unmarshal.setField a m with
    | none => simp [setFields, hm] at h
    | some b =>
      simp only [setFields, hm] at h
      cases hk : isServerKey m.1 with
      | true =>
        have hb : proj b = proj a' := (hs a m b hk hm).trans hp
        simpa [List.filter, hk] using ih b a' c hb h
      | false =>
        obtain ⟨b', hm', hb⟩ := hc a a' m b hk hp hm
        obtain ⟨c', hc', hpc⟩ := ih b b' c hb h
        exact ⟨c', by simp [List.filter, hk, setFields, hm', hc'], hpc⟩

/-- Two bodies that agree off `id` and `date` and both bind, bind to structs
that agree on the fields read through `proj`. -/
theorem bind_agree {α β : Type} [Unmarshal α] (proj : α → β)
    (hs : ∀ (a : α) (m : String × Json) (b : α),
      isServerKey m.1 = true → Unmarshal.setField a m = some b → proj b = proj a)
    (hc : ∀ (a a' : α) (m : String × Json) (b : α),
      isServerKey m.1 = false → proj a = proj a' → Unmarshal.setField a m = some b →
        ∃ b', Unmarshal.setField a' m = some b' ∧ proj b = proj b')
    (b1 b2 : Body) (c1 c2 : α) (hstrip : stripServerFields b1 = stripServerFields b2)
    (h1 : ShouldBindJSON b1 = some c1) (h2 : ShouldBindJSON b2 = some c2) :
    proj c1 = proj c2 := by
  have key : ∀ (b : Body) (c : α), ShouldBindJSON b = some c →
      ∃ c', ShouldBindJSON (stripServerFields b) = some c' ∧ proj c = proj c' := by
    intro b c h
    cases b with
    | none => simp [ShouldBindJSON] at h
    | some v =>
      cases v with
      | obj ms =>
        simp only [ShouldBindJSON] at h
        obtain ⟨c', h', hp⟩ := setFields_strip proj hs hc ms Unmarshal.zero Unmarshal.zero c rfl h
        exact ⟨c', by simpa [stripServerFields, ShouldBindJSON] using h', hp⟩
      | null => exact ⟨c, by simpa [stripServerFields] using h, rfl⟩
      | bool _ => simp [ShouldBindJSON] at h
      | num _ => simp [ShouldBindJSON] at h
      | str _ => simp [ShouldBindJSON] at h
      | arr _ => simp [ShouldBindJSON] at h
  obtain ⟨d1, hd1, hp1⟩ := key b1 c1 h1
  obtain ⟨d2, hd2, hp2⟩ := key b2 c2 h2
  rw [hstrip, hd2] at hd1
  cases hd1
  exact hp1.trans hp2.symm


theorem campaign_server_member (a : CampaignConversion) (m : String × Json)
    (b : CampaignConversion) (hk : isServerKey m.1 = true)
    (h : Unmarshal.setField a m = some b) : b.clientFields = a.clientFields := by
  simp only [Unmarshal.setField] at h
  by_cases h1 : keyMatches m.1 "id" = true
  · simp only [h1, if_true, Option.map_eq_some'] at h
    obtain ⟨x, _, rfl⟩ := h
    rfl
  · have h4 : keyMatches m.1 "date" = true := by simpa [isServerKey, h1] using hk
    have h2 := keyMatches_exclusive m.1 "date" "campaign" (by decide) h4
    have h3 := keyMatches_exclusive m.1 "date" "conversions" (by decide) h4
    simp only [h1, h2, h3, h4, if_true, if_false, Bool.false_eq_true, Option.map_eq_some'] at h
    obtain ⟨x, _, rfl⟩ := h
    rfl

theorem campaign_client_member (a a' : CampaignConversion) (m : String × Json)
    (b : CampaignConversion) (hk : isServerKey m.1 = false)
    (hp : a.clientFields = a'.clientFields) (h : Unmarshal.setField a m = some b) :
    ∃ b', Unmarshal.setField a' m = some b' ∧ b.clientFields = b'.clientFields := by
  have h1 : keyMatches m.1 "id" = false := by
    cases hh : keyMatches m.1 "id" <;> simp [isServerKey, hh] at hk ⊢
  have h4 : keyMatches m.1 "date" = false := by
    cases hh : keyMatches m.1 "date" <;> simp [isServerKey, hh] at hk ⊢
  have hp1 : a.Campaign = a'.Campaign := congrArg Prod.fst hp
  have hp2 : a.Conversions = a'.Conversions := congrArg Prod.snd hp
  simp only [Unmarshal.setField, h1, h4, if_false, Bool.false_eq_true] at h ⊢
  by_cases h2 : keyMatches m.1 "campaign" = true
  · rw [if_pos h2] at h ⊢
    obtain ⟨x, hx, rfl⟩ := Option.map_eq_some'.1 h
    exact ⟨_, Option.map_eq_some'.2 ⟨x, hp1 ▸ hx, rfl⟩,
      by simp [CampaignConversion.clientFields, hp2]⟩
  · rw [if_neg h2] at h ⊢
    by_cases h3 : keyMatches m.1 "conversions" = true
    · rw [if_pos h3] at h ⊢
      obtain ⟨x, hx, rfl⟩ := Option.map_eq_some'.1 h
      exact ⟨_, Option.map_eq_some'.2 ⟨x, hp2 ▸ hx, rfl⟩,
        by simp [CampaignConversion.clientFields, hp1]⟩
    · rw [if_neg h3] at h ⊢
      cases h
      exact ⟨a', rfl, hp⟩


theorem revenue_server_member (a : RevenueDataPoint) (m : String × Json)
    (b : RevenueDataPoint) (hk : isServerKey m.1 = true)
    (h : Unmarshal.setField a m = some b) : b.clientFields = a.clientFields := by
  simp only [Unmarshal.setField] at h
  by_cases h1 : keyMatches m.1 "id" = true
  · rw [if_pos h1] at h
    obtain ⟨x, _, rfl⟩ := Option.map_eq_some'.1 h
    rfl
  · have h4 : keyMatches m.1 "date" = true := by simpa [isServerKey, h1] using hk
    rw [if_neg h1, if_pos h4] at h
    obtain ⟨x, _, rfl⟩ := Option.map_eq_some'.1 h
    rfl

theorem revenue_client_member (a a' : RevenueDataPoint) (m : String × Json)
    (b : RevenueDataPoint) (hk : isServerKey m.1 = false)
    (hp : a.clientFields = a'.clientFields) (h : Unmarshal.setField a m = some b) :
    ∃ b', Unmarshal.setField a' m = some b' ∧ b.clientFields = b'.clientFields := by
  have h1 : keyMatches m.1 "id" = false := by
    cases hh : keyMatches m.1 "id" <;> simp [isServerKey, hh] at hk ⊢
  have h4 : keyMatches m.1 "date" = false := by
    cases hh : keyMatches m.1 "date" <;> simp [isServerKey, hh] at hk ⊢
  have hp1 : a.Revenue = a'.Revenue := congrArg Prod.fst hp
  have hp2 : a.Source = a'.Source := congrArg (fun p => p.2.1) hp
  have hp3 : a.Region = a'.Region := congrArg (fun p => p.2.2) hp
  simp only [Unmarshal.setField, h1, h4, if_false, Bool.false_eq_true] at h ⊢
  by_cases h2 : keyMatches m.1 "revenue" = true
  · rw [if_pos h2] at h ⊢
    obtain ⟨x, hx, rfl⟩ := Option.map_eq_some'.1 h
    exact ⟨_, Option.map_eq_some'.2 ⟨x, hp1 ▸ hx, rfl⟩,
      by simp [RevenueDataPoint.clientFields, hp2, hp3]⟩
  · rw [if_neg h2] at h ⊢
    by_cases h3 : keyMatches m.1 "source" = true
    · rw [if_pos h3] at h ⊢
      obtain ⟨x, hx, rfl⟩ := Option.map_eq_some'.1 h
      exact ⟨_, Option.map_eq_some'.2 ⟨x, hp2 ▸ hx, rfl⟩,
        by simp [RevenueDataPoint.clientFields, hp1, hp3]⟩
    · rw [if_neg h3] at h ⊢
      by_cases h5 : keyMatches m.1 "region" = true
      · rw [if_pos h5] at h ⊢
        obtain ⟨x, hx, rfl⟩ := Option.map_eq_some'.1 h
        exact ⟨_, Option.map_eq_some'.2 ⟨x, hp3 ▸ hx, rfl⟩,
          by simp [RevenueDataPoint.clientFields, hp1, hp2]⟩
      · rw [if_neg h5] at h ⊢
        cases h
        exact ⟨a', rfl, hp⟩

theorem overview_server_member (a : OverviewMetrics) (m : String × Json)
    (b : OverviewMetrics) (hk : isServerKey m.1 = true)
    (h : Unmarshal.setField a m = some b) : b.clientFields = a.clientFields := by
  simp only [Unmarshal.setField] at h
  by_cases h1 : keyMatches m.1 "id" = true
  · rw [if_pos h1] at h
    obtain ⟨x, _, rfl⟩ := Option.map_eq_some'.1 h
    rfl
  · have h4 : keyMatches m.1 "date" = true := by simpa [isServerKey, h1] using hk
    have h2 := keyMatches_exclusive m.1 "date" "revenue" (by decide) h4
    have h3 := keyMatches_exclusive m.1 "date" "users" (by decide) h4
    have h5 := keyMatches_exclusive m.1 "date" "conversions" (by decide) h4
    have h6 := keyMatches_exclusive m.1 "date" "growth" (by decide) h4
    simp only [h1, h2, h3, h5, h6, h4, if_true, if_false, Bool.false_eq_true] at h
    obtain ⟨x, _, rfl⟩ := Option.map_eq_some'.1 h
    rfl

theorem overview_client_member (a a' : OverviewMetrics) (m : String × Json)
    (b : OverviewMetrics) (hk : isServerKey m.1 = false)
    (hp : a.clientFields = a'.clientFields) (h : Unmarshal.setField a m = some b) :
    ∃ b', Unmarshal.setField a' m = some b' ∧ b.clientFields = b'.clientFields := by
  have h1 : keyMatches m.1 "id" = false := by
    cases hh : keyMatches m.1 "id" <;> simp [isServerKey, hh] at hk ⊢
  have h4 : keyMatches m.1 "date" = false := by
    cases hh : keyMatches m.1 "date" <;> simp [isServerKey, hh] at hk ⊢
  have hp1 : a.Revenue = a'.Revenue := congrArg Prod.fst hp
  have hp2 : a.Users = a'.Users := congrArg (fun p => p.2.1) hp
  have hp3 : a.Conversions = a'.Conversions := congrArg (fun p => p.2.2.1) hp
  have hp4 : a.Growth = a'.Growth := congrArg (fun p => p.2.2.2) hp
  simp only [Unmarshal.setField, h1, h4, if_false, Bool.false_eq_true] at h ⊢
  by_cases h2 : keyMatches m.1 "revenue" = true
  · rw [if_pos h2] at h ⊢
    obtain ⟨x, hx, rfl⟩ := Option.map_eq_some'.1 h
    exact ⟨_, Option.map_eq_some'.2 ⟨x, hp1 ▸ hx, rfl⟩,
      by simp [OverviewMetrics.clientFields, hp2, hp3, hp4]⟩
  · rw [if_neg h2] at h ⊢
    by_cases h3 : keyMatches m.1 "users" = true
    · rw [if_pos h3] at h ⊢
      obtain ⟨x, hx, rfl⟩ := Option.map_eq_some'.1 h
      exact ⟨_, Option.map_eq_some'.2 ⟨x, hp2 ▸ hx, rfl⟩,
        by simp [OverviewMetrics.clientFields, hp1, hp3, hp4]⟩
    · rw [if_neg h3] at h ⊢
      by_cases h5 : keyMatches m.1 "conversions" = true
      · rw [if_pos h5] at h ⊢
        obtain ⟨x, hx, rfl⟩ := Option.map_eq_some'.1 h
        exact ⟨_, Option.map_eq_some'.2 ⟨x, hp3 ▸ hx, rfl⟩,
          by simp [OverviewMetrics.clientFields, hp1, hp2, hp4]⟩
      · rw [if_neg h5] at h ⊢
        by_cases h6 : keyMatches m.1 "growth" = true
        · rw [if_pos h6] at h ⊢
          obtain ⟨x, hx, rfl⟩ := Option.map_eq_some'.1 h
          exact ⟨_, Option.map_eq_some'.2 ⟨x, hp4 ▸ hx, rfl⟩,
            by simp [OverviewMetrics.clientFields, hp1, hp2, hp3]⟩
        · rw [if_neg h6] at h ⊢
          cases h
          exact ⟨a', rfl, hp⟩

/-- C7, amended: for two bodies that agree on every field other than `id` and
`date` and that both bind or both fail to bind, each create handler, run in
the same environment on the same collection, gives the same response and the
same collection afterwards; so the status code is the same and a stored
document is the same whatever `id` and `date` the client sent. -/
theorem create_ignores_client_id_and_date (env : CreateEnv) (b1 b2 : Body)
    (hstrip : stripServerFields b1 = stripServerFields b2) :
    (∀ coll : List CampaignConversion,
      (BindJSON b1 : Option CampaignConversion).isSome =
          (BindJSON b2 : Option CampaignConversion).isSome →
        CreateCampaign env b1 coll = CreateCampaign env b2 coll) ∧
    (∀ coll : List RevenueDataPoint,
      (ShouldBindJSON b1 : Option RevenueDataPoint).isSome =
          (ShouldBindJSON b2 : Option RevenueDataPoint).isSome →
        CreateRevenueDataPoint env b1 coll = CreateRevenueDataPoint env b2 coll) ∧
    (∀ coll : List OverviewMetrics,
      (ShouldBindJSON b1 : Option OverviewMetrics).isSome =
          (ShouldBindJSON b2 : Option OverviewMetrics).isSome →
        CreateOverviewMetrics env b1 coll = CreateOverviewMetrics env b2 coll) := by
  refine ⟨?_, ?_, ?_⟩
  · intro coll hsome
    cases h1 : (BindJSON b1 : Option CampaignConversion) with
    | none =>
      cases h2 : (BindJSON b2 : Option CampaignConversion) with
      | none => rw [CreateCampaign_unbound env b1 coll h1, CreateCampaign_unbound env b2 coll h2]
      | some c2 => rw [h1, h2] at hsome; cases hsome
    | some c1 =>
      cases h2 : (BindJSON b2 : Option CampaignConversion) with
      | none => rw [h1, h2] at hsome; cases hsome
      | some c2 =>
        have hp := bind_agree CampaignConversion.clientFields campaign_server_member
          campaign_client_member b1 b2 c1 c2 hstrip h1 h2
        have hp1 : c1.Campaign = c2.Campaign := congrArg Prod.fst hp
        have hp2 : c1.Conversions = c2.Conversions := congrArg Prod.snd hp
        simp only [CreateCampaign, h1, h2, hp1, hp2]
  · intro coll hsome
    cases h1 : (ShouldBindJSON b1 : Option RevenueDataPoint) with
    | none =>
      cases h2 : (ShouldBindJSON b2 : Option RevenueDataPoint) with
      | none =>
        rw [CreateRevenueDataPoint_unbound env b1 coll h1,
          CreateRevenueDataPoint_unbound env b2 coll h2]
      | some c2 => rw [h1, h2] at hsome; cases hsome
    | some c1 =>
      cases h2 : (ShouldBindJSON b2 : Option RevenueDataPoint) with
      | none => rw [h1, h2] at hsome; cases hsome
      | some c2 =>
        have hp := bind_agree RevenueDataPoint.clientFields revenue_server_member
          revenue_client_member b1 b2 c1 c2 hstrip h1 h2
        have hp1 : c1.Revenue = c2.Revenue := congrArg Prod.fst hp
        have hp2 : c1.Source = c2.Source := congrArg (fun p => p.2.1) hp
        have hp3 : c1.Region = c2.Region := congrArg (fun p => p.2.2) hp
        simp only [CreateRevenueDataPoint, h1, h2, hp1, hp2, hp3]
  · intro coll hsome
    cases h1 : (ShouldBindJSON b1 : Option OverviewMetrics) with
    | none =>
      cases h2 : (ShouldBindJSON b2 : Option OverviewMetrics) with
      | none =>
        rw [CreateOverviewMetrics_unbound env b1 coll h1,
          CreateOverviewMetrics_unbound env b2 coll h2]
      | some c2 => rw [h1, h2] at hsome; cases hsome
    | some c1 =>
      cases h2 : (ShouldBindJSON b2 : Option OverviewMetrics) with
      | none => rw [h1, h2] at hsome; cases hsome
      | some c2 =>
        have hp := bind_agree OverviewMetrics.clientFields overview_server_member
          overview_client_member b1 b2 c1 c2 hstrip h1 h2
        have hp1 : c1.Revenue = c2.Revenue := congrArg Prod.fst hp
        have hp2 : c1.Users = c2.Users := congrArg (fun p => p.2.1) hp
        have hp3 : c1.Conversions = c2.Conversions := congrArg (fun p => p.2.2.1) hp
        have hp4 : c1.Growth = c2.Growth := congrArg (fun p => p.2.2.2) hp
        simp only [CreateOverviewMetrics, h1, h2, hp1, hp2, hp3, hp4]

/-- C7, amended, at the spring-sale body without and with a client-supplied
id and date. -/
theorem create_ignores_client_id_and_date_witness :
    CreateCampaign sampleEnv springSale [⟨1, "a", 1, 0⟩] =
      CreateCampaign sampleEnv campaignWithIdDate [⟨1, "a", 1, 0⟩] :=
  (create_ignores_client_id_and_date sampleEnv springSale campaignWithIdDate rfl).1
    [⟨1, "a", 1, 0⟩] (by decide)


/-! ## Range of a stored count -/

theorem decodeInt_range (v : Json) (old x : Int) (h : decodeInt v old = some x) :
    x = old ∨ (minInt ≤ x ∧ x ≤ maxInt) := by
  cases v with
  | null =>
    simp only [decodeInt, Option.some.injEq] at h
    exact Or.inl h.symm
  | num lit =>
    cases hl : lit.integer with
    | none => simp [decodeInt, hl] at h
    | some n =>
      by_cases hr : minInt ≤ n ∧ n ≤ maxInt
      · simp only [decodeInt, hl, if_pos hr, Option.some.injEq] at h
        exact Or.inr (h ▸ hr)
      · simp [decodeInt, hl, if_neg hr] at h
  | bool _ => simp [decodeInt] at h
  | str _ => simp [decodeInt] at h
  | arr _ => simp [decodeInt] at h
  | obj _ => simp [decodeInt] at h

theorem campaign_conversions_step (a : CampaignConversion) (m : String × Json)
    (b : CampaignConversion) (ha : minInt ≤ a.Conversions ∧ a.Conversions ≤ maxInt)
    (h : Unmarshal.setField a m = some b) :
    minInt ≤ b.Conversions ∧ b.Conversions ≤ maxInt := by
  simp only [Unmarshal.setField] at h
  by_cases h1 : keyMatches m.1 "id" = true
  · rw [if_pos h1] at h
    obtain ⟨x, _, rfl⟩ := Option.map_eq_some'.1 h
    exact ha
  · rw [if_neg h1] at h
    by_cases h2 : keyMatches m.1 "campaign" = true
    · rw [if_pos h2] at h
      obtain ⟨x, _, rfl⟩ := Option.map_eq_some'.1 h
      exact ha
    · rw [if_neg h2] at h
      by_cases h3 : keyMatches m.1 "conversions" = true
      · rw [if_pos h3] at h
        obtain ⟨x, hx, rfl⟩ := Option.map_eq_some'.1 h
        rcases decodeInt_range m.2 a.Conversions x hx with hx1 | hx1
        · exact hx1 ▸ ha
        · exact hx1
      · rw [if_neg h3] at h
        by_cases h4 : keyMatches m.1 "date" = true
        · rw [if_pos h4] at h
          obtain ⟨x, _, rfl⟩ := Option.map_eq_some'.1 h
          exact ha
        · rw [if_neg h4] at h
          cases h
          exact ha

/-- The conversions of a bound campaign lie in the range of `int`. -/
theorem bound_conversions_in_range (body : Body) (c : CampaignConversion)
    (h : (BindJSON body : Option CampaignConversion) = some c) :
    minInt ≤ c.Conversions ∧ c.Conversions ≤ maxInt := by
  have hz : minInt ≤ (Unmarshal.zero : CampaignConversion).Conversions ∧
      (Unmarshal.zero : CampaignConversion).Conversions ≤ maxInt := by decide
  cases body with
  | none => simp [BindJSON, ShouldBindJSON] at h
  | some v =>
    cases v with
    | obj ms =>
      simp only [BindJSON, ShouldBindJSON] at h
      exact setFields_invariant (fun a : CampaignConversion =>
        minInt ≤ a.Conversions ∧ a.Conversions ≤ maxInt) campaign_conversions_step ms _ c hz h
    | null =>
      simp only [BindJSON, ShouldBindJSON, Option.some.injEq] at h
      exact h ▸ hz
    | bool _ => simp [BindJSON, ShouldBindJSON] at h
    | num _ => simp [BindJSON, ShouldBindJSON] at h
    | str _ => simp [BindJSON, ShouldBindJSON] at h
    | arr _ => simp [BindJSON, ShouldBindJSON] at h

/-- C8, amended: for every request body, either `CreateCampaign` rejects the
create (it does not answer 201 and stores nothing), or it stores one document
whose conversions is the integer bound from the body, a value in the range of
a 64-bit `int` that may be negative. -/
theorem stored_conversions_in_int_range (env : CreateEnv) (body : Body)
    (coll : List CampaignConversion) :
    ((CreateCampaign env body coll).1.status ≠ StatusCreated ∧
        (CreateCampaign env body coll).2 = coll) ∨
    ∃ c : CampaignConversion, BindJSON body = some c ∧
      (CreateCampaign env body coll).2 =
        coll ++ [⟨env.newObjectID, c.Campaign, c.Conversions, env.now⟩] ∧
      minInt ≤ c.Conversions ∧ c.Conversions ≤ maxInt := by
  cases hb : (BindJSON body : Option CampaignConversion) with
  | none =>
    rw [CreateCampaign_unbound env body coll hb]
    exact Or.inl ⟨bad_request_ne_created, rfl⟩
  | some c =>
    rcases CreateCampaign_bound env body coll c hb with ⟨h, _⟩ | ⟨h, _⟩ | ⟨h, _⟩
    · rw [h]
      exact Or.inl ⟨internal_ne_created, rfl⟩
    · rw [h]
      exact Or.inr ⟨c, rfl, rfl, bound_conversions_in_range body c hb⟩
    · rw [h]
      exact Or.inr ⟨c, rfl, rfl, bound_conversions_in_range body c hb⟩

/-! ## Uniqueness of ids -/

/-- A run of a handler whose every call stores nothing and returns no id, or
appends one document with an id that was not present and returns that id, or
appends such a document without returning its id (an insert applied while the
call failed): the ids in the collection at the end are the ids at
the start followed by the ids added, they are pairwise distinct, the ids
returned are among the ids added, in order, and are all of them when no
insert of the run was applied without acknowledgement; the collection at the
start is a prefix of the collection at the end. -/
theorem runCreates_ids {α : Type} [Document α]
    (handler : CreateEnv → Body → List α → Response × List α)
    (hstep : ∀ env body coll,
      ((handler env body coll).1.createdID = none ∧ (handler env body coll).2 = coll) ∨
      (∃ doc, Document.docID doc ∉ ids coll ∧
        (handler env body coll).1.createdID = some (Document.docID doc) ∧
        (handler env body coll).2 = coll ++ [doc]) ∨
      (∃ doc, Document.docID doc ∉ ids coll ∧
        (handler env body coll).1.createdID = none ∧
        (handler env body coll).2 = coll ++ [doc] ∧ env.insertApplied = true)) :
    ∀ (calls : List (CreateEnv × Body)) (coll : List α), (ids coll).Nodup →
      ∃ added, ids (runCreates handler calls coll).2 = ids coll ++ added ∧
        (returnedIDs (runCreates handler calls coll).1).Sublist added ∧
        (ids (runCreates handler calls coll).2).Nodup ∧
        coll <+: (runCreates handler calls coll).2 ∧
        ((∀ call ∈ calls, call.1.insertApplied = false) →
          added = returnedIDs (runCreates handler calls coll).1) := by
  intro calls
  induction calls with
  | nil =>
    intro coll hnd
    exact ⟨[], by simp [runCreates], by simp [runCreates, returnedIDs], by simpa [runCreates],
      by simp [runCreates], fun _ => by simp [runCreates, returnedIDs]⟩
  | cons call rest ih =>
    intro coll hnd
    obtain ⟨env, body⟩ := call
    have hfreshNodup : ∀ doc : α, Document.docID doc ∉ ids coll → (ids (coll ++ [doc])).Nodup := by
      intro doc hfresh
      simp only [ids, List.map_append, List.map_cons, List.map_nil]
      refine List.nodup_append.2 ⟨hnd, List.nodup_singleton _, ?_⟩
      intro a ha hb
      rw [List.mem_singleton] at hb
      subst hb
      exact hfresh ha
    rcases hstep env body coll with ⟨hid, hcoll⟩ | ⟨doc, hfresh, hid, hcoll⟩ |
      ⟨doc, hfresh, hid, hcoll, happ⟩
    · obtain ⟨added, h1, h2, h3, h4, h5⟩ := ih coll hnd
      refine ⟨added, ?_, ?_, ?_, ?_, ?_⟩
      · simpa only [runCreates, hcoll] using h1
      · simpa only [runCreates, returnedIDs, List.filterMap_cons, hid, hcoll] using h2
      · simpa only [runCreates, hcoll] using h3
      · simpa only [runCreates, hcoll] using h4
      · intro hall
        have := h5 (fun call hc => hall call (List.mem_cons_of_mem _ hc))
        simpa only [runCreates, returnedIDs, List.filterMap_cons, hid, hcoll] using this
    · obtain ⟨added, h1, h2, h3, h4, h5⟩ := ih (coll ++ [doc]) (hfreshNodup doc hfresh)
      refine ⟨Document.docID doc :: added, ?_, ?_, ?_, ?_, ?_⟩
      · simp only [runCreates, hcoll]
        rw [h1]
        simp [ids]
      · simp only [runCreates, returnedIDs, List.filterMap_cons, hid, hcoll]
        exact List.Sublist.cons₂ _ h2
      · simpa only [runCreates, hcoll] using h3
      · simp only [runCreates, hcoll]
        exact (List.prefix_append coll [doc]).trans h4
      · intro hall
        have := h5 (fun call hc => hall call (List.mem_cons_of_mem _ hc))
        simp only [runCreates, returnedIDs, List.filterMap_cons, hid, hcoll]
        rw [this]
        rfl
    · obtain ⟨added, h1, h2, h3, h4, _⟩ := ih (coll ++ [doc]) (hfreshNodup doc hfresh)
      refine ⟨Document.docID doc :: added, ?_, ?_, ?_, ?_, ?_⟩
      · simp only [runCreates, hcoll]
        rw [h1]
        simp [ids]
      · simp only [runCreates, returnedIDs, List.filterMap_cons, hid, hcoll]
        exact List.Sublist.cons _ h2
      · simpa only [runCreates, hcoll] using h3
      · simp only [runCreates, hcoll]
        exact (List.prefix_append coll [doc]).trans h4
      · intro hall
        have hfalse := hall (env, body) (List.mem_cons_self _ _)
        rw [happ] at hfalse
        cases hfalse

theorem CreateCampaign_step (env : CreateEnv) (body : Body) (coll : List CampaignConversion) :
    ((CreateCampaign env body coll).1.createdID = none ∧ (CreateCampaign env body coll).2 = coll) ∨
    (∃ doc : CampaignConversion, Document.docID doc ∉ ids coll ∧
      (CreateCampaign env body coll).1.createdID = some (Document.docID doc) ∧
      (CreateCampaign env body coll).2 = coll ++ [doc]) ∨
    (∃ doc : CampaignConversion, Document.docID doc ∉ ids coll ∧
      (CreateCampaign env body coll).1.createdID = none ∧
      (CreateCampaign env body coll).2 = coll ++ [doc] ∧ env.insertApplied = true) := by
  cases hb : (BindJSON body : Option CampaignConversion) with
  | none =>
    rw [CreateCampaign_unbound env body coll hb]
    exact Or.inl ⟨rfl, rfl⟩
  | some c =>
    rcases CreateCampaign_bound env body coll c hb with
      ⟨h, _⟩ | ⟨h, _, ha, hfresh⟩ | ⟨h, _, hfresh⟩
    · rw [h]
      exact Or.inl ⟨rfl, rfl⟩
    · rw [h]
      exact Or.inr (Or.inr ⟨⟨env.newObjectID, _, _, _⟩, hfresh, rfl, rfl, ha⟩)
    · rw [h]
      exact Or.inr (Or.inl ⟨⟨env.newObjectID, _, _, _⟩, hfresh, rfl, rfl⟩)

theorem CreateRevenueDataPoint_step (env : CreateEnv) (body : Body) (coll : List RevenueDataPoint) :
    ((CreateRevenueDataPoint env body coll).1.createdID = none ∧ (CreateRevenueDataPoint env body coll).2 = coll) ∨
    (∃ doc : RevenueDataPoint, Document.docID doc ∉ ids coll ∧
      (CreateRevenueDataPoint env body coll).1.createdID = some (Document.docID doc) ∧
      (CreateRevenueDataPoint env body coll).2 = coll ++ [doc]) ∨
    (∃ doc : RevenueDataPoint, Document.docID doc ∉ ids coll ∧
      (CreateRevenueDataPoint env body coll).1.createdID = none ∧
      (CreateRevenueDataPoint env body coll).2 = coll ++ [doc] ∧ env.insertApplied = true) := by
  cases hb : (ShouldBindJSON body : Option RevenueDataPoint) with
  | none =>
    rw [CreateRevenueDataPoint_unbound env body coll hb]
    exact Or.inl ⟨rfl, rfl⟩
  | some c =>
    rcases CreateRevenueDataPoint_bound env body coll c hb with
      ⟨h, _⟩ | ⟨h, _, ha, hfresh⟩ | ⟨h, _, hfresh⟩
    · rw [h]
      exact Or.inl ⟨rfl, rfl⟩
    · rw [h]
      exact Or.inr (Or.inr ⟨⟨env.newObjectID, _, _, _, _⟩, hfresh, rfl, rfl, ha⟩)
    · rw [h]
      exact Or.inr (Or.inl ⟨⟨env.newObjectID, _, _, _, _⟩, hfresh, rfl, rfl⟩)

theorem CreateOverviewMetrics_step (env : CreateEnv) (body : Body) (coll : List OverviewMetrics) :
    ((CreateOverviewMetrics env body coll).1.createdID = none ∧ (CreateOverviewMetrics env body coll).2 = coll) ∨
    (∃ doc : OverviewMetrics, Document.docID doc ∉ ids coll ∧
      (CreateOverviewMetrics env body coll).1.createdID = some (Document.docID doc) ∧
      (CreateOverviewMetrics env body coll).2 = coll ++ [doc]) ∨
    (∃ doc : OverviewMetrics, Document.docID doc ∉ ids coll ∧
      (CreateOverviewMetrics env body coll).1.createdID = none ∧
      (CreateOverviewMetrics env body coll).2 = coll ++ [doc] ∧ env.insertApplied = true) := by
  cases hb : (ShouldBindJSON body : Option OverviewMetrics) with
  | none =>
    rw [CreateOverviewMetrics_unbound env body coll hb]
    exact Or.inl ⟨rfl, rfl⟩
  | some c =>
    rcases CreateOverviewMetrics_bound env body coll c hb with
      ⟨h, _⟩ | ⟨h, _, ha, hfresh⟩ | ⟨h, _, hfresh⟩
    · rw [h]
      exact Or.inl ⟨rfl, rfl⟩
    · rw [h]
      exact Or.inr (Or.inr ⟨⟨env.newObjectID, _, _, _, _, _⟩, hfresh, rfl, rfl, ha⟩)
    · rw [h]
      exact Or.inr (Or.inl ⟨⟨env.newObjectID, _, _, _, _, _⟩, hfresh, rfl, rfl⟩)

/-- A handler that meets the step condition never touches what is stored. -/
theorem step_keeps_stored {α : Type} [Document α]
    (handler : CreateEnv → Body → List α → Response × List α)
    (hstep : ∀ env body coll,
      ((handler env body coll).1.createdID = none ∧ (handler env body coll).2 = coll) ∨
      (∃ doc, Document.docID doc ∉ ids coll ∧
        (handler env body coll).1.createdID = some (Document.docID doc) ∧
        (handler env body coll).2 = coll ++ [doc]) ∨
      (∃ doc, Document.docID doc ∉ ids coll ∧
        (handler env body coll).1.createdID = none ∧
        (handler env body coll).2 = coll ++ [doc] ∧ env.insertApplied = true))
    (env : CreateEnv) (body : Body) (coll : List α) : coll <+: (handler env body coll).2 := by
  rcases hstep env body coll with ⟨_, h⟩ | ⟨doc, _, _, h⟩ | ⟨doc, _, _, h, _⟩
  · rw [h]
  · rw [h]
    exact List.prefix_append coll [doc]
  · rw [h]
    exact List.prefix_append coll [doc]

/-- Ids returned and ids stored by a run that starts on the empty collection. -/
theorem runCreates_from_empty {α : Type} [Document α]
    (handler : CreateEnv → Body → List α → Response × List α)
    (hstep : ∀ env body coll,
      ((handler env body coll).1.createdID = none ∧ (handler env body coll).2 = coll) ∨
      (∃ doc, Document.docID doc ∉ ids coll ∧
        (handler env body coll).1.createdID = some (Document.docID doc) ∧
        (handler env body coll).2 = coll ++ [doc]) ∨
      (∃ doc, Document.docID doc ∉ ids coll ∧
        (handler env body coll).1.createdID = none ∧
        (handler env body coll).2 = coll ++ [doc] ∧ env.insertApplied = true))
    (calls : List (CreateEnv × Body)) :
    (returnedIDs (runCreates handler calls []).1).Nodup ∧
      (ids (runCreates handler calls []).2).Nodup ∧
      (returnedIDs (runCreates handler calls []).1).Sublist
        (ids (runCreates handler calls []).2) ∧
      ((∀ call ∈ calls, call.1.insertApplied = false) →
        ids (runCreates handler calls []).2 = returnedIDs (runCreates handler calls []).1) := by
  obtain ⟨added, h1, h2, h3, _, h5⟩ := runCreates_ids handler hstep calls [] List.nodup_nil
  have h6 : ids (runCreates handler calls []).2 = added := by
    rw [h1]
    rfl
  rw [h6] at h3 ⊢
  exact ⟨h2.nodup h3, h3, h2, fun hall => h5 hall⟩

/-- C9: for each of the three create handlers, after any sequence of create
calls on a collection that starts empty, the ids returned by the successful
calls are pairwise distinct, the documents of the collection have pairwise
distinct ids, and a create leaves every document already stored in place and
unchanged, its id included.  The ids returned are ids of stored documents, in
the order stored, and they are all the ids stored when no insert of the
sequence was applied by the store while its call failed. -/
theorem ids_are_unique (calls : List (CreateEnv × Body)) :
    ((returnedIDs (runCreates CreateCampaign calls []).1).Nodup ∧
      (ids (runCreates CreateCampaign calls []).2).Nodup ∧
      (returnedIDs (runCreates CreateCampaign calls []).1).Sublist
        (ids (runCreates CreateCampaign calls []).2) ∧
      ((∀ call ∈ calls, call.1.insertApplied = false) →
        ids (runCreates CreateCampaign calls []).2 =
          returnedIDs (runCreates CreateCampaign calls []).1)) ∧
    ((returnedIDs (runCreates CreateRevenueDataPoint calls []).1).Nodup ∧
      (ids (runCreates CreateRevenueDataPoint calls []).2).Nodup ∧
      (returnedIDs (runCreates CreateRevenueDataPoint calls []).1).Sublist
        (ids (runCreates CreateRevenueDataPoint calls []).2) ∧
      ((∀ call ∈ calls, call.1.insertApplied = false) →
        ids (runCreates CreateRevenueDataPoint calls []).2 =
          returnedIDs (runCreates CreateRevenueDataPoint calls []).1)) ∧
    ((returnedIDs (runCreates CreateOverviewMetrics calls []).1).Nodup ∧
      (ids (runCreates CreateOverviewMetrics calls []).2).Nodup ∧
      (returnedIDs (runCreates CreateOverviewMetrics calls []).1).Sublist
        (ids (runCreates CreateOverviewMetrics calls []).2) ∧
      ((∀ call ∈ calls, call.1.insertApplied = false) →
        ids (runCreates CreateOverviewMetrics calls []).2 =
          returnedIDs (runCreates CreateOverviewMetrics calls []).1)) ∧
    (∀ env body (coll : List CampaignConversion), coll <+: (CreateCampaign env body coll).2) ∧
    (∀ env body (coll : List RevenueDataPoint),
      coll <+: (CreateRevenueDataPoint env body coll).2) ∧
    (∀ env body (coll : List OverviewMetrics),
      coll <+: (CreateOverviewMetrics env body coll).2) :=
  ⟨runCreates_from_empty CreateCampaign CreateCampaign_step calls,
    runCreates_from_empty CreateRevenueDataPoint CreateRevenueDataPoint_step calls,
    runCreates_from_empty CreateOverviewMetrics CreateOverviewMetrics_step calls,
    step_keeps_stored CreateCampaign CreateCampaign_step,
    step_keeps_stored CreateRevenueDataPoint CreateRevenueDataPoint_step,
    step_keeps_stored CreateOverviewMetrics CreateOverviewMetrics_step⟩

/-- C9 on a run of four campaign creates: accepted, refused for a duplicate
id, timed out without being applied, accepted with another id. -/
theorem ids_are_unique_witness :
    ids (runCreates CreateCampaign sampleCalls []).2 =
      returnedIDs (runCreates CreateCampaign sampleCalls []).1 :=
  (ids_are_unique sampleCalls).1.2.2.2 (by decide)


end Dashboard
